import Mathlib

/-!
Verification development for the browser-based brain volume viewer.

The development shallowly embeds the volumetric pipeline of the repository:

* `NiftiLoader` (NIfTI-1 parser: magic validation, header decoding,
  slope/intercept scaling, min/max scan, voxel sampling, slice extraction),
* `VolumeRenderer` (slice windowing, slice-index clamping, marching-cubes
  isosurface extraction with its 256-entry edge and triangle tables).

Modelling conventions:

* A binary buffer is a `List ℕ` of bytes; `DataView` accesses that would
  throw a JS `RangeError` are modelled with `Except`.
* JS numbers are modelled as exact rationals (`ℚ`).  IEEE-754 rounding is
  abstracted away; NaN / Infinity bit patterns, which `ℚ` cannot represent,
  are decoded to `0` by the float decoders (the claims never depend on
  non-finite samples, and theorems that divide carry a nondegeneracy
  hypothesis where the JS value would be non-finite).
* Division by zero in `ℚ` yields `0`, as usual in Mathlib.
-/

-- Batteries marks the `Rat` field operations `@[irreducible]`, which
-- blocks `decide` on closed rational computations; restore reducibility
-- (the kernel ignores reducibility attributes, so this is proof-neutral).
set_option allowUnsafeReducibility true

attribute [semireducible] Rat.add Rat.mul Rat.sub Rat.inv Rat.ofScientific

namespace Brain

/-- Parse-time failures: a bad magic number (the explicit `throw` in
`parseNifti`) or an out-of-range `DataView` access (a JS `RangeError`). -/
inductive PErr where
  | badMagic
  | rangeError
deriving DecidableEq, Repr

/-- A binary buffer: a flat list of bytes. -/
abbrev Buffer := List ℕ

instance {ε α : Type} [DecidableEq ε] [DecidableEq α] :
    DecidableEq (Except ε α) := fun x y =>
  match x, y with
  | .ok a, .ok b =>
    if h : a = b then .isTrue (by rw [h]) else .isFalse (by simp [h])
  | .error e, .error f =>
    if h : e = f then .isTrue (by rw [h]) else .isFalse (by simp [h])
  | .ok _, .error _ => .isFalse (by simp)
  | .error _, .ok _ => .isFalse (by simp)

/-- Read one byte; `DataView` throws a `RangeError` past the end. -/
def byteAt (b : Buffer) (i : ℕ) : Except PErr ℕ :=
  match b.get? i with
  | some v => .ok v
  | none => .error .rangeError

/-- `DataView.getUint8`. -/
def getU8 (b : Buffer) (i : ℕ) : Except PErr ℕ := byteAt b i

/-- `DataView.getUint16(off, true)` (little-endian). -/
def getU16le (b : Buffer) (off : ℕ) : Except PErr ℕ := do
  let b0 ← byteAt b off
  let b1 ← byteAt b (off + 1)
  .ok (b0 + 256 * b1)

/-- Reinterpret an unsigned `w`-bit value as two's-complement signed. -/
def toSigned (w : ℕ) (u : ℕ) : ℤ :=
  if u < 2 ^ (w - 1) then (u : ℤ) else (u : ℤ) - 2 ^ w

/-- `DataView.getInt8`. -/
def getI8 (b : Buffer) (i : ℕ) : Except PErr ℤ :=
  (byteAt b i).map (toSigned 8)

/-- `DataView.getInt16(off, true)`. -/
def getI16le (b : Buffer) (off : ℕ) : Except PErr ℤ :=
  (getU16le b off).map (toSigned 16)

/-- Little-endian unsigned 32-bit read. -/
def getU32le (b : Buffer) (off : ℕ) : Except PErr ℕ := do
  let b0 ← byteAt b off
  let b1 ← byteAt b (off + 1)
  let b2 ← byteAt b (off + 2)
  let b3 ← byteAt b (off + 3)
  .ok (b0 + 256 * b1 + 65536 * b2 + 16777216 * b3)

/-- `DataView.getInt32(off, true)`. -/
def getI32le (b : Buffer) (off : ℕ) : Except PErr ℤ :=
  (getU32le b off).map (toSigned 32)

/-- Little-endian unsigned 64-bit read. -/
def getU64le (b : Buffer) (off : ℕ) : Except PErr ℕ := do
  let lo ← getU32le b off
  let hi ← getU32le b (off + 4)
  .ok (lo + 4294967296 * hi)

/-- Value of an IEEE-754 binary32 bit pattern, as an exact rational.
NaN / Infinity patterns (exponent `255`) decode to `0`: `ℚ` cannot
represent them, and no claim depends on non-finite samples. -/
def decodeF32 (u : ℕ) : ℚ :=
  let s : ℕ := u / 2 ^ 31
  let e : ℕ := (u / 2 ^ 23) % 256
  let m : ℕ := u % 2 ^ 23
  let mag : ℚ :=
    if e = 0 then (m : ℚ) * (2 : ℚ) ^ (-149 : ℤ)
    else if e = 255 then 0
    else ((2 ^ 23 + m : ℕ) : ℚ) * (2 : ℚ) ^ ((e : ℤ) - 150)
  if s = 1 then -mag else mag

/-- Value of an IEEE-754 binary64 bit pattern, as an exact rational
(same convention for non-finite patterns as `decodeF32`). -/
def decodeF64 (u : ℕ) : ℚ :=
  let s : ℕ := u / 2 ^ 63
  let e : ℕ := (u / 2 ^ 52) % 2048
  let m : ℕ := u % 2 ^ 52
  let mag : ℚ :=
    if e = 0 then (m : ℚ) * (2 : ℚ) ^ (-1074 : ℤ)
    else if e = 2047 then 0
    else ((2 ^ 52 + m : ℕ) : ℚ) * (2 : ℚ) ^ ((e : ℤ) - 1075)
  if s = 1 then -mag else mag

/-- `DataView.getFloat32(off, true)`. -/
def getF32le (b : Buffer) (off : ℕ) : Except PErr ℚ :=
  (getU32le b off).map decodeF32

/-- `DataView.getFloat64(off, true)`. -/
def getF64le (b : Buffer) (off : ℕ) : Except PErr ℚ :=
  (getU64le b off).map decodeF64

/-- Run `f` on `0, 1, …, n-1` in order, collecting results left-to-right
and propagating the first error (the shape of the decoding loops in
`readImageData` and of the header-array loops in `parseNifti`). -/
def exceptMapRange (f : ℕ → Except PErr α) : ℕ → Except PErr (List α)
  | 0 => .ok []
  | n + 1 =>
    match exceptMapRange f n, f n with
    | .ok xs, .ok x => .ok (xs ++ [x])
    | .error e, _ => .error e
    | .ok _, .error e => .error e

/-- Total value of a byte read (used to state what the fallible readers
return on in-bounds offsets). -/
def u8V (b : Buffer) (i : ℕ) : ℕ := b.getD i 0

/-- Total value of a little-endian 16-bit read. -/
def u16V (b : Buffer) (off : ℕ) : ℕ := u8V b off + 256 * u8V b (off + 1)

/-- Total value of a little-endian 32-bit read. -/
def u32V (b : Buffer) (off : ℕ) : ℕ :=
  u8V b off + 256 * u8V b (off + 1) + 65536 * u8V b (off + 2) +
    16777216 * u8V b (off + 3)

/-- Total value of a little-endian 64-bit read. -/
def u64V (b : Buffer) (off : ℕ) : ℕ := u32V b off + 4294967296 * u32V b (off + 4)

/-- The header record populated by `NiftiLoader.parseNifti`. -/
structure NiftiHeader where
  sizeof_hdr : ℤ
  dim : List ℤ
  datatype : ℤ
  bitpix : ℤ
  pixdim : List ℚ
  vox_offset : ℚ
  scl_slope : ℚ
  scl_inter : ℚ
  qform_code : ℤ
  sform_code : ℤ
deriving DecidableEq, Repr

/-- `this.dimensions` of `NiftiLoader`. -/
structure Dim3 where
  x : ℤ
  y : ℤ
  z : ℤ
deriving DecidableEq, Repr

/-- `this.voxelSize` of `NiftiLoader` (millimetres). -/
structure VoxSize where
  x : ℚ
  y : ℚ
  z : ℚ
deriving DecidableEq, Repr

/-- The state a successful `parseNifti` leaves in the `NiftiLoader`. -/
structure NiftiVolume where
  header : NiftiHeader
  dimensions : Dim3
  voxelSize : VoxSize
  imageData : List ℚ
  dataMin : ℚ
  dataMax : ℚ
deriving DecidableEq, Repr

/-- One step of the running-minimum loop `if (val < dataMin) dataMin = val`. -/
def jsMin (m v : ℚ) : ℚ := if v < m then v else m

/-- One step of the running-maximum loop `if (val > dataMax) dataMax = val`. -/
def jsMax (m v : ℚ) : ℚ := if v > m then v else m

/-- The min scan of `parseNifti`.  The source starts from `Infinity`, so on
a nonempty field the first element always replaces the initial value; the
empty field (where the source would keep `Infinity`, unrepresentable in
`ℚ`) is mapped to `0`. -/
def scanMin : List ℚ → ℚ
  | [] => 0
  | v :: vs => vs.foldl jsMin v

/-- The max scan of `parseNifti` (source initial value `-Infinity`). -/
def scanMax : List ℚ → ℚ
  | [] => 0
  | v :: vs => vs.foldl jsMax v

/-- Raw sample of index `i` read from the `DataView` based at `base`,
following the `switch (this.header.datatype)` of `readImageData`
(unknown datatype codes fall back to unsigned 8-bit). -/
def decodeSample (datatype : ℤ) (b : Buffer) (base i : ℕ) : Except PErr ℚ :=
  if datatype = 2 then (getU8 b (base + i)).map (fun v => (v : ℚ))
  else if datatype = 4 then (getI16le b (base + i * 2)).map (fun v => (v : ℚ))
  else if datatype = 8 then (getI32le b (base + i * 4)).map (fun v => (v : ℚ))
  else if datatype = 16 then getF32le b (base + i * 4)
  else if datatype = 64 then getF64le b (base + i * 8)
  else if datatype = 256 then (getI8 b (base + i)).map (fun v => (v : ℚ))
  else if datatype = 512 then (getU16le b (base + i * 2)).map (fun v => (v : ℚ))
  else (getU8 b (base + i)).map (fun v => (v : ℚ))

/-- `NiftiLoader.readImageData`: decode `n` samples through the datatype
switch, applying `value * slope + inter` to each.  The `DataView`
constructor itself throws when the base offset exceeds the buffer length. -/
def readImageData (b : Buffer) (base n : ℕ) (datatype : ℤ)
    (slope inter : ℚ) : Except PErr (List ℚ) :=
  if b.length < base then .error .rangeError
  else exceptMapRange (fun i => (decodeSample datatype b base i).map
    (fun r => r * slope + inter)) n

/-- Byte offset of the voxel body: `Math.max(352, this.header.vox_offset)`,
truncated to an index as the `DataView` constructor does. -/
def voxDataOffset (h : NiftiHeader) : ℕ := (⌊max 352 h.vox_offset⌋).toNat

/-- The accepted magic `'n+1\0'`. -/
def magicNP1 : List ℕ := [110, 43, 49, 0]

/-- The accepted magic `'ni1\0'`. -/
def magicNI1 : List ℕ := [110, 105, 49, 0]

/-- Header portion of `NiftiLoader.parseNifti`: the fixed-offset reads, the
magic check, and the slope-zero normalization (the source performs the
normalization on `this.header.scl_slope` before reading the image data). -/
def parseHeader (b : Buffer) : Except PErr NiftiHeader := do
  let headerSize ← getI32le b 0
  let m0 ← getU8 b 344
  let m1 ← getU8 b 345
  let m2 ← getU8 b 346
  let m3 ← getU8 b 347
  if [m0, m1, m2, m3] ≠ magicNP1 ∧ [m0, m1, m2, m3] ≠ magicNI1 then
    .error .badMagic
  else do
    let datatype ← getI16le b 70
    let bitpix ← getI16le b 72
    let vox_offset ← getF32le b 108
    let scl_slope ← getF32le b 112
    let scl_inter ← getF32le b 116
    let qform_code ← getI16le b 252
    let sform_code ← getI16le b 254
    let dim ← exceptMapRange (fun i => getI16le b (40 + i * 2)) 8
    let pixdim ← exceptMapRange (fun i => getF32le b (76 + i * 4)) 8
    .ok { sizeof_hdr := headerSize
          dim := dim
          datatype := datatype
          bitpix := bitpix
          pixdim := pixdim
          vox_offset := vox_offset
          scl_slope := if scl_slope = 0 then 1 else scl_slope
          scl_inter := scl_inter
          qform_code := qform_code
          sform_code := sform_code }

/-- `NiftiLoader.parseNifti`: parse the header, read and scale the voxel
body, and scan for the global min/max. -/
def parseNifti (b : Buffer) : Except PErr NiftiVolume := do
  let hdr ← parseHeader b
  let dims : Dim3 := ⟨hdr.dim.getD 1 0, hdr.dim.getD 2 0, hdr.dim.getD 3 0⟩
  let voxSize : VoxSize :=
    ⟨|hdr.pixdim.getD 1 0|, |hdr.pixdim.getD 2 0|, |hdr.pixdim.getD 3 0|⟩
  let numVoxels : ℕ := (dims.x * dims.y * dims.z).toNat
  let data ← readImageData b (voxDataOffset hdr) numVoxels hdr.datatype
    hdr.scl_slope hdr.scl_inter
  .ok { header := hdr
        dimensions := dims
        voxelSize := voxSize
        imageData := data
        dataMin := scanMin data
        dataMax := scanMax data }

/-- `NiftiLoader.getVoxel`: out-of-range coordinates return the sentinel
`0`; in-range coordinates index the flat field `x + y·dimX + z·dimX·dimY`. -/
def getVoxel (vol : NiftiVolume) (x y z : ℤ) : ℚ :=
  if x < 0 ∨ vol.dimensions.x ≤ x ∨ y < 0 ∨ vol.dimensions.y ≤ y ∨
      z < 0 ∨ vol.dimensions.z ≤ z then 0
  else vol.imageData.getD
    (x + y * vol.dimensions.x + z * vol.dimensions.x * vol.dimensions.y).toNat 0

/-- `NiftiLoader.getNormalizedVoxel`: `(val - dataMin) / (dataMax - dataMin)`. -/
def getNormalizedVoxel (vol : NiftiVolume) (x y z : ℤ) : ℚ :=
  (getVoxel vol x y z - vol.dataMin) / (vol.dataMax - vol.dataMin)

/-- `NiftiLoader.getPhysicalSize`, per axis. -/
def physicalSize (vol : NiftiVolume) : ℚ × ℚ × ℚ :=
  ((vol.dimensions.x : ℚ) * vol.voxelSize.x,
   (vol.dimensions.y : ℚ) * vol.voxelSize.y,
   (vol.dimensions.z : ℚ) * vol.voxelSize.z)

/-- The three orthogonal planes (`'axial'`, `'coronal'`, `'sagittal'`). -/
inductive Plane where
  | axial
  | coronal
  | sagittal
deriving DecidableEq, Repr

/-- ECMAScript `ToUint8Clamp`: how an assignment into a
`Uint8ClampedArray` converts a number (clamp to `[0,255]`, round half to
even). -/
def toUint8Clamp (q : ℚ) : ℕ :=
  if q ≤ 0 then 0
  else if 255 ≤ q then 255
  else
    let f : ℤ := ⌊q⌋
    (if (f : ℚ) + 1 / 2 < q then f + 1
     else if q < (f : ℚ) + 1 / 2 then f
     else if f % 2 = 0 then f else f + 1).toNat

/-- One pixel value of `NiftiLoader.getSlice`:
`Math.floor(this.getNormalizedVoxel(…) * 255)` stored into the
`Uint8ClampedArray`. -/
def slicePixelValue (vol : NiftiVolume) (x y z : ℤ) : ℕ :=
  toUint8Clamp (⌊getNormalizedVoxel vol x y z * 255⌋ : ℤ)

/-- `NiftiLoader.getSlice('axial', index)`: the flat RGBA byte raster of
the XY plane at Z = `index`, row-major, no vertical flip, written as
opaque grayscale (`R = G = B = val`, `A = 255`). -/
def getSliceAxial (vol : NiftiVolume) (index : ℤ) : List ℕ :=
  (List.range vol.dimensions.y.toNat).flatMap (fun y =>
    (List.range vol.dimensions.x.toNat).flatMap (fun x =>
      let val := slicePixelValue vol (x : ℤ) (y : ℤ) index
      [val, val, val, 255]))

/-- `NiftiLoader.getSlice('coronal', index)`: the XZ plane at
Y = `index`.  The source loops `z` ascending but writes each pixel at
`idx = ((height - 1 - z) * width + x) * 4`; every output row is written
exactly once, so the finished raster holds the sample rows in descending
`z` order — rendered here by iterating the reversed row range. -/
def getSliceCoronal (vol : NiftiVolume) (index : ℤ) : List ℕ :=
  ((List.range vol.dimensions.z.toNat).reverse).flatMap (fun z =>
    (List.range vol.dimensions.x.toNat).flatMap (fun x =>
      let val := slicePixelValue vol (x : ℤ) index (z : ℤ)
      [val, val, val, 255]))

/-- `NiftiLoader.getSlice('sagittal', index)`: the YZ plane at
X = `index`, with the same `(height - 1 - z)` vertical flip as the
coronal branch (rows in descending `z` order). -/
def getSliceSagittal (vol : NiftiVolume) (index : ℤ) : List ℕ :=
  ((List.range vol.dimensions.z.toNat).reverse).flatMap (fun z =>
    (List.range vol.dimensions.y.toNat).flatMap (fun y =>
      let val := slicePixelValue vol index (y : ℤ) (z : ℤ)
      [val, val, val, 255]))

/-- `NiftiLoader.getSlice`: dispatch on the plane string (the three
branches of the source's `switch (plane)`). -/
def getSlice (vol : NiftiVolume) (plane : Plane) (index : ℤ) : List ℕ :=
  match plane with
  | .axial => getSliceAxial vol index
  | .coronal => getSliceCoronal vol index
  | .sagittal => getSliceSagittal vol index

/-- The windowing applied to one red-channel byte in
`VolumeRenderer.applyWindowing`: `center = level·255`, `width' = width·255`,
`min = center − width'/2`, `max = center + width'/2`,
`val = clamp(((val − min)/(max − min))·255, 0, 255)`, then the write into
the `Uint8ClampedArray` rounds. -/
def windowPixel (level width : ℚ) (v : ℕ) : ℕ :=
  let center := level * 255
  let w := width * 255
  let mn := center - w / 2
  let mx := center + w / 2
  let val := ((v : ℚ) - mn) / (mx - mn) * 255
  toUint8Clamp (max 0 (min 255 val))

/-- The byte loop of `VolumeRenderer.applyWindowing`: for each group of 4
bytes, read the red channel, window it, write it to R, G and B, and leave
alpha alone.  (Trailing groups shorter than 4 bytes never occur for real
`ImageData`, but the source loop would still process their red channel.) -/
def windowLoop (level width : ℚ) : List ℕ → List ℕ
  | r :: _g :: _b :: a :: rest =>
    windowPixel level width r :: windowPixel level width r ::
      windowPixel level width r :: a :: windowLoop level width rest
  | [r, _g, _b] => [windowPixel level width r, windowPixel level width r,
      windowPixel level width r]
  | [r, _g] => [windowPixel level width r, windowPixel level width r]
  | [r] => [windowPixel level width r]
  | [] => []

/-- `VolumeRenderer.applyWindowing` on a flat RGBA byte raster. -/
def applyWindowing (level width : ℚ) (data : List ℕ) : List ℕ :=
  windowLoop level width data

/-- The per-instance state of `VolumeRenderer` the claims are about. -/
structure RendererState where
  axialIndex : ℤ
  coronalIndex : ℤ
  sagittalIndex : ℤ
  windowLevel : ℚ
  windowWidth : ℚ
  surfaceThreshold : ℚ
deriving DecidableEq, Repr

/-- The `VolumeRenderer` constructor: slice indices start at
`Math.floor(dim/2)` per axis, window level/width at `0.5`/`1.0`, surface
threshold at `0.3`. -/
def mkRenderer (vol : NiftiVolume) : RendererState :=
  { axialIndex := ⌊(vol.dimensions.z : ℚ) / 2⌋
    coronalIndex := ⌊(vol.dimensions.y : ℚ) / 2⌋
    sagittalIndex := ⌊(vol.dimensions.x : ℚ) / 2⌋
    windowLevel := 1 / 2
    windowWidth := 1
    surfaceThreshold := 3 / 10 }

/-- The scale the constructor computes: `4 / maxDim` over the physical
sizes. -/
def rendererScale (vol : NiftiVolume) : ℚ :=
  4 / max (physicalSize vol).1 (max (physicalSize vol).2.1 (physicalSize vol).2.2)

/-- The per-plane `maxIndex` of `VolumeRenderer.setSliceIndex`. -/
def maxIndexFor (vol : NiftiVolume) : Plane → ℤ
  | .axial => vol.dimensions.z - 1
  | .coronal => vol.dimensions.y - 1
  | .sagittal => vol.dimensions.x - 1

/-- `VolumeRenderer.setSliceIndex`:
`Math.max(0, Math.min(maxIndex[plane], index))`. -/
def setSliceIndex (vol : NiftiVolume) (s : RendererState) (p : Plane)
    (index : ℤ) : RendererState :=
  let clamped := max 0 (min (maxIndexFor vol p) index)
  match p with
  | .axial => { s with axialIndex := clamped }
  | .coronal => { s with coronalIndex := clamped }
  | .sagittal => { s with sagittalIndex := clamped }

/-- A 3D point (world coordinates). -/
structure Pt where
  x : ℚ
  y : ℚ
  z : ℚ
deriving DecidableEq, Repr

/-- `VolumeRenderer.interpolateEdge`: short-circuit when the threshold is
within `0.00001` of either corner value or the corner values are within
`0.00001` of each other, else linear interpolation at
`t = (threshold − v1)/(v2 − v1)`. -/
def interpolateEdge (p1 p2 : Pt) (v1 v2 threshold : ℚ) : Pt :=
  if |threshold - v1| < 1 / 100000 then p1
  else if |threshold - v2| < 1 / 100000 then p2
  else if |v1 - v2| < 1 / 100000 then p1
  else
    let t := (threshold - v1) / (v2 - v1)
    { x := p1.x + t * (p2.x - p1.x)
      y := p1.y + t * (p2.y - p1.y)
      z := p1.z + t * (p2.z - p1.z) }

/-- The `toWorld` mapping of `VolumeRenderer.getCubeCorners`:
`((v/dim) − 0.5) · dim · voxelSize · scale` per axis. -/
def toWorld (vol : NiftiVolume) (vx vy vz : ℤ) : Pt :=
  { x := ((vx : ℚ) / (vol.dimensions.x : ℚ) - 1 / 2) *
      (vol.dimensions.x : ℚ) * vol.voxelSize.x * rendererScale vol
    y := ((vy : ℚ) / (vol.dimensions.y : ℚ) - 1 / 2) *
      (vol.dimensions.y : ℚ) * vol.voxelSize.y * rendererScale vol
    z := ((vz : ℚ) / (vol.dimensions.z : ℚ) - 1 / 2) *
      (vol.dimensions.z : ℚ) * vol.voxelSize.z * rendererScale vol }

/-- `VolumeRenderer.getCubeCorners(x, y, z, step)` in the canonical
corner order 0–7. -/
def getCubeCorners (vol : NiftiVolume) (x y z : ℤ) (step : ℤ) : List Pt :=
  [toWorld vol x y z,
   toWorld vol (x + step) y z,
   toWorld vol (x + step) (y + step) z,
   toWorld vol x (y + step) z,
   toWorld vol x y (z + step),
   toWorld vol (x + step) y (z + step),
   toWorld vol (x + step) (y + step) (z + step),
   toWorld vol x (y + step) (z + step)]

/-- The eight corner samples of a cell, in the order
`marchingCubes` gathers them (step fixed at 2 in the source). -/
def cubeValuesAt (vol : NiftiVolume) (x y z : ℤ) : List ℚ :=
  [getNormalizedVoxel vol x y z,
   getNormalizedVoxel vol (x + 2) y z,
   getNormalizedVoxel vol (x + 2) (y + 2) z,
   getNormalizedVoxel vol x (y + 2) z,
   getNormalizedVoxel vol x y (z + 2),
   getNormalizedVoxel vol (x + 2) y (z + 2),
   getNormalizedVoxel vol (x + 2) (y + 2) (z + 2),
   getNormalizedVoxel vol x (y + 2) (z + 2)]

/-- The 8-bit classification loop: bit `i` set iff
`cubeValues[i] > threshold`. -/
def cubeIndexOf (threshold : ℚ) (cubeValues : List ℚ) : ℕ :=
  (List.range 8).foldl
    (fun ci i => if cubeValues.getD i 0 > threshold then ci ||| (1 <<< i) else ci) 0

/-- `VolumeRenderer.getEdgeTable`: the 256-entry edge-active mask table. -/
def edgeTable : List ℕ :=
  [0x0, 0x109, 0x203, 0x30a, 0x406, 0x50f, 0x605, 0x70c,
   0x80c, 0x905, 0xa0f, 0xb06, 0xc0a, 0xd03, 0xe09, 0xf00,
   0x190, 0x99, 0x393, 0x29a, 0x596, 0x49f, 0x795, 0x69c,
   0x99c, 0x895, 0xb9f, 0xa96, 0xd9a, 0xc93, 0xf99, 0xe90,
   0x230, 0x339, 0x33, 0x13a, 0x636, 0x73f, 0x435, 0x53c,
   0xa3c, 0xb35, 0x83f, 0x936, 0xe3a, 0xf33, 0xc39, 0xd30,
   0x3a0, 0x2a9, 0x1a3, 0xaa, 0x7a6, 0x6af, 0x5a5, 0x4ac,
   0xbac, 0xaa5, 0x9af, 0x8a6, 0xfaa, 0xea3, 0xda9, 0xca0,
   0x460, 0x569, 0x663, 0x76a, 0x66, 0x16f, 0x265, 0x36c,
   0xc6c, 0xd65, 0xe6f, 0xf66, 0x86a, 0x963, 0xa69, 0xb60,
   0x5f0, 0x4f9, 0x7f3, 0x6fa, 0x1f6, 0xff, 0x3f5, 0x2fc,
   0xdfc, 0xcf5, 0xfff, 0xef6, 0x9fa, 0x8f3, 0xbf9, 0xaf0,
   0x650, 0x759, 0x453, 0x55a, 0x256, 0x35f, 0x55, 0x15c,
   0xe5c, 0xf55, 0xc5f, 0xd56, 0xa5a, 0xb53, 0x859, 0x950,
   0x7c0, 0x6c9, 0x5c3, 0x4ca, 0x3c6, 0x2cf, 0x1c5, 0xcc,
   0xfcc, 0xec5, 0xdcf, 0xcc6, 0xbca, 0xac3, 0x9c9, 0x8c0,
   0x8c0, 0x9c9, 0xac3, 0xbca, 0xcc6, 0xdcf, 0xec5, 0xfcc,
   0xcc, 0x1c5, 0x2cf, 0x3c6, 0x4ca, 0x5c3, 0x6c9, 0x7c0,
   0x950, 0x859, 0xb53, 0xa5a, 0xd56, 0xc5f, 0xf55, 0xe5c,
   0x15c, 0x55, 0x35f, 0x256, 0x55a, 0x453, 0x759, 0x650,
   0xaf0, 0xbf9, 0x8f3, 0x9fa, 0xef6, 0xfff, 0xcf5, 0xdfc,
   0x2fc, 0x3f5, 0xff, 0x1f6, 0x6fa, 0x7f3, 0x4f9, 0x5f0,
   0xb60, 0xa69, 0x963, 0x86a, 0xf66, 0xe6f, 0xd65, 0xc6c,
   0x36c, 0x265, 0x16f, 0x66, 0x76a, 0x663, 0x569, 0x460,
   0xca0, 0xda9, 0xea3, 0xfaa, 0x8a6, 0x9af, 0xaa5, 0xbac,
   0x4ac, 0x5a5, 0x6af, 0x7a6, 0xaa, 0x1a3, 0x2a9, 0x3a0,
   0xd30, 0xc39, 0xf33, 0xe3a, 0x936, 0x83f, 0xb35, 0xa3c,
   0x53c, 0x435, 0x73f, 0x636, 0x13a, 0x33, 0x339, 0x230,
   0xe90, 0xf99, 0xc93, 0xd9a, 0xa96, 0xb9f, 0x895, 0x99c,
   0x69c, 0x795, 0x49f, 0x596, 0x29a, 0x393, 0x99, 0x190,
   0xf00, 0xe09, 0xd03, 0xc0a, 0xb06, 0xa0f, 0x905, 0x80c,
   0x70c, 0x605, 0x50f, 0x406, 0x30a, 0x203, 0x109, 0x0]

set_option maxHeartbeats 1000000 in
/-- `VolumeRenderer.getTriTable`: the 256-entry triangle-assembly table,
each row listing edge indices in groups of three, terminated by `-1`. -/
def triTable : List (List ℤ) :=
  [[-1],
   [0, 8, 3, -1],
   [0, 1, 9, -1],
   [1, 8, 3, 9, 8, 1, -1],
   [1, 2, 10, -1],
   [0, 8, 3, 1, 2, 10, -1],
   [9, 2, 10, 0, 2, 9, -1],
   [2, 8, 3, 2, 10, 8, 10, 9, 8, -1],
   [3, 11, 2, -1],
   [0, 11, 2, 8, 11, 0, -1],
   [1, 9, 0, 2, 3, 11, -1],
   [1, 11, 2, 1, 9, 11, 9, 8, 11, -1],
   [3, 10, 1, 11, 10, 3, -1],
   [0, 10, 1, 0, 8, 10, 8, 11, 10, -1],
   [3, 9, 0, 3, 11, 9, 11, 10, 9, -1],
   [9, 8, 10, 10, 8, 11, -1],
   [4, 7, 8, -1],
   [4, 3, 0, 7, 3, 4, -1],
   [0, 1, 9, 8, 4, 7, -1],
   [4, 1, 9, 4, 7, 1, 7, 3, 1, -1],
   [1, 2, 10, 8, 4, 7, -1],
   [3, 4, 7, 3, 0, 4, 1, 2, 10, -1],
   [9, 2, 10, 9, 0, 2, 8, 4, 7, -1],
   [2, 10, 9, 2, 9, 7, 2, 7, 3, 7, 9, 4, -1],
   [8, 4, 7, 3, 11, 2, -1],
   [11, 4, 7, 11, 2, 4, 2, 0, 4, -1],
   [9, 0, 1, 8, 4, 7, 2, 3, 11, -1],
   [4, 7, 11, 9, 4, 11, 9, 11, 2, 9, 2, 1, -1],
   [3, 10, 1, 3, 11, 10, 7, 8, 4, -1],
   [1, 11, 10, 1, 4, 11, 1, 0, 4, 7, 11, 4, -1],
   [4, 7, 8, 9, 0, 11, 9, 11, 10, 11, 0, 3, -1],
   [4, 7, 11, 4, 11, 9, 9, 11, 10, -1],
   [9, 5, 4, -1],
   [9, 5, 4, 0, 8, 3, -1],
   [0, 5, 4, 1, 5, 0, -1],
   [8, 5, 4, 8, 3, 5, 3, 1, 5, -1],
   [1, 2, 10, 9, 5, 4, -1],
   [3, 0, 8, 1, 2, 10, 4, 9, 5, -1],
   [5, 2, 10, 5, 4, 2, 4, 0, 2, -1],
   [2, 10, 5, 3, 2, 5, 3, 5, 4, 3, 4, 8, -1],
   [9, 5, 4, 2, 3, 11, -1],
   [0, 11, 2, 0, 8, 11, 4, 9, 5, -1],
   [0, 5, 4, 0, 1, 5, 2, 3, 11, -1],
   [2, 1, 5, 2, 5, 8, 2, 8, 11, 4, 8, 5, -1],
   [10, 3, 11, 10, 1, 3, 9, 5, 4, -1],
   [4, 9, 5, 0, 8, 1, 8, 10, 1, 8, 11, 10, -1],
   [5, 4, 0, 5, 0, 11, 5, 11, 10, 11, 0, 3, -1],
   [5, 4, 8, 5, 8, 10, 10, 8, 11, -1],
   [9, 7, 8, 5, 7, 9, -1],
   [9, 3, 0, 9, 5, 3, 5, 7, 3, -1],
   [0, 7, 8, 0, 1, 7, 1, 5, 7, -1],
   [1, 5, 3, 3, 5, 7, -1],
   [9, 7, 8, 9, 5, 7, 10, 1, 2, -1],
   [10, 1, 2, 9, 5, 0, 5, 3, 0, 5, 7, 3, -1],
   [8, 0, 2, 8, 2, 5, 8, 5, 7, 10, 5, 2, -1],
   [2, 10, 5, 2, 5, 3, 3, 5, 7, -1],
   [7, 9, 5, 7, 8, 9, 3, 11, 2, -1],
   [9, 5, 7, 9, 7, 2, 9, 2, 0, 2, 7, 11, -1],
   [2, 3, 11, 0, 1, 8, 1, 7, 8, 1, 5, 7, -1],
   [11, 2, 1, 11, 1, 7, 7, 1, 5, -1],
   [9, 5, 8, 8, 5, 7, 10, 1, 3, 10, 3, 11, -1],
   [5, 7, 0, 5, 0, 9, 7, 11, 0, 1, 0, 10, 11, 10, 0, -1],
   [11, 10, 0, 11, 0, 3, 10, 5, 0, 8, 0, 7, 5, 7, 0, -1],
   [11, 10, 5, 7, 11, 5, -1],
   [10, 6, 5, -1],
   [0, 8, 3, 5, 10, 6, -1],
   [9, 0, 1, 5, 10, 6, -1],
   [1, 8, 3, 1, 9, 8, 5, 10, 6, -1],
   [1, 6, 5, 2, 6, 1, -1],
   [1, 6, 5, 1, 2, 6, 3, 0, 8, -1],
   [9, 6, 5, 9, 0, 6, 0, 2, 6, -1],
   [5, 9, 8, 5, 8, 2, 5, 2, 6, 3, 2, 8, -1],
   [2, 3, 11, 10, 6, 5, -1],
   [11, 0, 8, 11, 2, 0, 10, 6, 5, -1],
   [0, 1, 9, 2, 3, 11, 5, 10, 6, -1],
   [5, 10, 6, 1, 9, 2, 9, 11, 2, 9, 8, 11, -1],
   [6, 3, 11, 6, 5, 3, 5, 1, 3, -1],
   [0, 8, 11, 0, 11, 5, 0, 5, 1, 5, 11, 6, -1],
   [3, 11, 6, 0, 3, 6, 0, 6, 5, 0, 5, 9, -1],
   [6, 5, 9, 6, 9, 11, 11, 9, 8, -1],
   [5, 10, 6, 4, 7, 8, -1],
   [4, 3, 0, 4, 7, 3, 6, 5, 10, -1],
   [1, 9, 0, 5, 10, 6, 8, 4, 7, -1],
   [10, 6, 5, 1, 9, 7, 1, 7, 3, 7, 9, 4, -1],
   [6, 1, 2, 6, 5, 1, 4, 7, 8, -1],
   [1, 2, 5, 5, 2, 6, 3, 0, 4, 3, 4, 7, -1],
   [8, 4, 7, 9, 0, 5, 0, 6, 5, 0, 2, 6, -1],
   [7, 3, 9, 7, 9, 4, 3, 2, 9, 5, 9, 6, 2, 6, 9, -1],
   [3, 11, 2, 7, 8, 4, 10, 6, 5, -1],
   [5, 10, 6, 4, 7, 2, 4, 2, 0, 2, 7, 11, -1],
   [0, 1, 9, 4, 7, 8, 2, 3, 11, 5, 10, 6, -1],
   [9, 2, 1, 9, 11, 2, 9, 4, 11, 7, 11, 4, 5, 10, 6, -1],
   [8, 4, 7, 3, 11, 5, 3, 5, 1, 5, 11, 6, -1],
   [5, 1, 11, 5, 11, 6, 1, 0, 11, 7, 11, 4, 0, 4, 11, -1],
   [0, 5, 9, 0, 6, 5, 0, 3, 6, 11, 6, 3, 8, 4, 7, -1],
   [6, 5, 9, 6, 9, 11, 4, 7, 9, 7, 11, 9, -1],
   [10, 4, 9, 6, 4, 10, -1],
   [4, 10, 6, 4, 9, 10, 0, 8, 3, -1],
   [10, 0, 1, 10, 6, 0, 6, 4, 0, -1],
   [8, 3, 1, 8, 1, 6, 8, 6, 4, 6, 1, 10, -1],
   [1, 4, 9, 1, 2, 4, 2, 6, 4, -1],
   [3, 0, 8, 1, 2, 9, 2, 4, 9, 2, 6, 4, -1],
   [0, 2, 4, 4, 2, 6, -1],
   [8, 3, 2, 8, 2, 4, 4, 2, 6, -1],
   [10, 4, 9, 10, 6, 4, 11, 2, 3, -1],
   [0, 8, 2, 2, 8, 11, 4, 9, 10, 4, 10, 6, -1],
   [3, 11, 2, 0, 1, 6, 0, 6, 4, 6, 1, 10, -1],
   [6, 4, 1, 6, 1, 10, 4, 8, 1, 2, 1, 11, 8, 11, 1, -1],
   [9, 6, 4, 9, 3, 6, 9, 1, 3, 11, 6, 3, -1],
   [8, 11, 1, 8, 1, 0, 11, 6, 1, 9, 1, 4, 6, 4, 1, -1],
   [3, 11, 6, 3, 6, 0, 0, 6, 4, -1],
   [6, 4, 8, 11, 6, 8, -1],
   [7, 10, 6, 7, 8, 10, 8, 9, 10, -1],
   [0, 7, 3, 0, 10, 7, 0, 9, 10, 6, 7, 10, -1],
   [10, 6, 7, 1, 10, 7, 1, 7, 8, 1, 8, 0, -1],
   [10, 6, 7, 10, 7, 1, 1, 7, 3, -1],
   [1, 2, 6, 1, 6, 8, 1, 8, 9, 8, 6, 7, -1],
   [2, 6, 9, 2, 9, 1, 6, 7, 9, 0, 9, 3, 7, 3, 9, -1],
   [7, 8, 0, 7, 0, 6, 6, 0, 2, -1],
   [7, 3, 2, 6, 7, 2, -1],
   [2, 3, 11, 10, 6, 8, 10, 8, 9, 8, 6, 7, -1],
   [2, 0, 7, 2, 7, 11, 0, 9, 7, 6, 7, 10, 9, 10, 7, -1],
   [1, 8, 0, 1, 7, 8, 1, 10, 7, 6, 7, 10, 2, 3, 11, -1],
   [11, 2, 1, 11, 1, 7, 10, 6, 1, 6, 7, 1, -1],
   [8, 9, 6, 8, 6, 7, 9, 1, 6, 11, 6, 3, 1, 3, 6, -1],
   [0, 9, 1, 11, 6, 7, -1],
   [7, 8, 0, 7, 0, 6, 3, 11, 0, 11, 6, 0, -1],
   [7, 11, 6, -1],
   [7, 6, 11, -1],
   [3, 0, 8, 11, 7, 6, -1],
   [0, 1, 9, 11, 7, 6, -1],
   [8, 1, 9, 8, 3, 1, 11, 7, 6, -1],
   [10, 1, 2, 6, 11, 7, -1],
   [1, 2, 10, 3, 0, 8, 6, 11, 7, -1],
   [2, 9, 0, 2, 10, 9, 6, 11, 7, -1],
   [6, 11, 7, 2, 10, 3, 10, 8, 3, 10, 9, 8, -1],
   [7, 2, 3, 6, 2, 7, -1],
   [7, 0, 8, 7, 6, 0, 6, 2, 0, -1],
   [2, 7, 6, 2, 3, 7, 0, 1, 9, -1],
   [1, 6, 2, 1, 8, 6, 1, 9, 8, 8, 7, 6, -1],
   [10, 7, 6, 10, 1, 7, 1, 3, 7, -1],
   [10, 7, 6, 1, 7, 10, 1, 8, 7, 1, 0, 8, -1],
   [0, 3, 7, 0, 7, 10, 0, 10, 9, 6, 10, 7, -1],
   [7, 6, 10, 7, 10, 8, 8, 10, 9, -1],
   [6, 8, 4, 11, 8, 6, -1],
   [3, 6, 11, 3, 0, 6, 0, 4, 6, -1],
   [8, 6, 11, 8, 4, 6, 9, 0, 1, -1],
   [9, 4, 6, 9, 6, 3, 9, 3, 1, 11, 3, 6, -1],
   [6, 8, 4, 6, 11, 8, 2, 10, 1, -1],
   [1, 2, 10, 3, 0, 11, 0, 6, 11, 0, 4, 6, -1],
   [4, 11, 8, 4, 6, 11, 0, 2, 9, 2, 10, 9, -1],
   [10, 9, 3, 10, 3, 2, 9, 4, 3, 11, 3, 6, 4, 6, 3, -1],
   [8, 2, 3, 8, 4, 2, 4, 6, 2, -1],
   [0, 4, 2, 4, 6, 2, -1],
   [1, 9, 0, 2, 3, 4, 2, 4, 6, 4, 3, 8, -1],
   [1, 9, 4, 1, 4, 2, 2, 4, 6, -1],
   [8, 1, 3, 8, 6, 1, 8, 4, 6, 6, 10, 1, -1],
   [10, 1, 0, 10, 0, 6, 6, 0, 4, -1],
   [4, 6, 3, 4, 3, 8, 6, 10, 3, 0, 3, 9, 10, 9, 3, -1],
   [10, 9, 4, 6, 10, 4, -1],
   [4, 9, 5, 7, 6, 11, -1],
   [0, 8, 3, 4, 9, 5, 11, 7, 6, -1],
   [5, 0, 1, 5, 4, 0, 7, 6, 11, -1],
   [11, 7, 6, 8, 3, 4, 3, 5, 4, 3, 1, 5, -1],
   [9, 5, 4, 10, 1, 2, 7, 6, 11, -1],
   [6, 11, 7, 1, 2, 10, 0, 8, 3, 4, 9, 5, -1],
   [7, 6, 11, 5, 4, 10, 4, 2, 10, 4, 0, 2, -1],
   [3, 4, 8, 3, 5, 4, 3, 2, 5, 10, 5, 2, 11, 7, 6, -1],
   [7, 2, 3, 7, 6, 2, 5, 4, 9, -1],
   [9, 5, 4, 0, 8, 6, 0, 6, 2, 6, 8, 7, -1],
   [3, 6, 2, 3, 7, 6, 1, 5, 0, 5, 4, 0, -1],
   [6, 2, 8, 6, 8, 7, 2, 1, 8, 4, 8, 5, 1, 5, 8, -1],
   [9, 5, 4, 10, 1, 6, 1, 7, 6, 1, 3, 7, -1],
   [1, 6, 10, 1, 7, 6, 1, 0, 7, 8, 7, 0, 9, 5, 4, -1],
   [4, 0, 10, 4, 10, 5, 0, 3, 10, 6, 10, 7, 3, 7, 10, -1],
   [7, 6, 10, 7, 10, 8, 5, 4, 10, 4, 8, 10, -1],
   [6, 9, 5, 6, 11, 9, 11, 8, 9, -1],
   [3, 6, 11, 0, 6, 3, 0, 5, 6, 0, 9, 5, -1],
   [0, 11, 8, 0, 5, 11, 0, 1, 5, 5, 6, 11, -1],
   [6, 11, 3, 6, 3, 5, 5, 3, 1, -1],
   [1, 2, 10, 9, 5, 11, 9, 11, 8, 11, 5, 6, -1],
   [0, 11, 3, 0, 6, 11, 0, 9, 6, 5, 6, 9, 1, 2, 10, -1],
   [11, 8, 5, 11, 5, 6, 8, 0, 5, 10, 5, 2, 0, 2, 5, -1],
   [6, 11, 3, 6, 3, 5, 2, 10, 3, 10, 5, 3, -1],
   [5, 8, 9, 5, 2, 8, 5, 6, 2, 3, 8, 2, -1],
   [9, 5, 6, 9, 6, 0, 0, 6, 2, -1],
   [1, 5, 8, 1, 8, 0, 5, 6, 8, 3, 8, 2, 6, 2, 8, -1],
   [1, 5, 6, 2, 1, 6, -1],
   [1, 3, 6, 1, 6, 10, 3, 8, 6, 5, 6, 9, 8, 9, 6, -1],
   [10, 1, 0, 10, 0, 6, 9, 5, 0, 5, 6, 0, -1],
   [0, 3, 8, 5, 6, 10, -1],
   [10, 5, 6, -1],
   [11, 5, 10, 7, 5, 11, -1],
   [11, 5, 10, 11, 7, 5, 8, 3, 0, -1],
   [5, 11, 7, 5, 10, 11, 1, 9, 0, -1],
   [10, 7, 5, 10, 11, 7, 9, 8, 1, 8, 3, 1, -1],
   [11, 1, 2, 11, 7, 1, 7, 5, 1, -1],
   [0, 8, 3, 1, 2, 7, 1, 7, 5, 7, 2, 11, -1],
   [9, 7, 5, 9, 2, 7, 9, 0, 2, 2, 11, 7, -1],
   [7, 5, 2, 7, 2, 11, 5, 9, 2, 3, 2, 8, 9, 8, 2, -1],
   [2, 5, 10, 2, 3, 5, 3, 7, 5, -1],
   [8, 2, 0, 8, 5, 2, 8, 7, 5, 10, 2, 5, -1],
   [9, 0, 1, 5, 10, 3, 5, 3, 7, 3, 10, 2, -1],
   [9, 8, 2, 9, 2, 1, 8, 7, 2, 10, 2, 5, 7, 5, 2, -1],
   [1, 3, 5, 3, 7, 5, -1],
   [0, 8, 7, 0, 7, 1, 1, 7, 5, -1],
   [9, 0, 3, 9, 3, 5, 5, 3, 7, -1],
   [9, 8, 7, 5, 9, 7, -1],
   [5, 8, 4, 5, 10, 8, 10, 11, 8, -1],
   [5, 0, 4, 5, 11, 0, 5, 10, 11, 11, 3, 0, -1],
   [0, 1, 9, 8, 4, 10, 8, 10, 11, 10, 4, 5, -1],
   [10, 11, 4, 10, 4, 5, 11, 3, 4, 9, 4, 1, 3, 1, 4, -1],
   [2, 5, 1, 2, 8, 5, 2, 11, 8, 4, 5, 8, -1],
   [0, 4, 11, 0, 11, 3, 4, 5, 11, 2, 11, 1, 5, 1, 11, -1],
   [0, 2, 5, 0, 5, 9, 2, 11, 5, 4, 5, 8, 11, 8, 5, -1],
   [9, 4, 5, 2, 11, 3, -1],
   [2, 5, 10, 3, 5, 2, 3, 4, 5, 3, 8, 4, -1],
   [5, 10, 2, 5, 2, 4, 4, 2, 0, -1],
   [3, 10, 2, 3, 5, 10, 3, 8, 5, 4, 5, 8, 0, 1, 9, -1],
   [5, 10, 2, 5, 2, 4, 1, 9, 2, 9, 4, 2, -1],
   [8, 4, 5, 8, 5, 3, 3, 5, 1, -1],
   [0, 4, 5, 1, 0, 5, -1],
   [8, 4, 5, 8, 5, 3, 9, 0, 5, 0, 3, 5, -1],
   [9, 4, 5, -1],
   [4, 11, 7, 4, 9, 11, 9, 10, 11, -1],
   [0, 8, 3, 4, 9, 7, 9, 11, 7, 9, 10, 11, -1],
   [1, 10, 11, 1, 11, 4, 1, 4, 0, 7, 4, 11, -1],
   [3, 1, 4, 3, 4, 8, 1, 10, 4, 7, 4, 11, 10, 11, 4, -1],
   [4, 11, 7, 9, 11, 4, 9, 2, 11, 9, 1, 2, -1],
   [9, 7, 4, 9, 11, 7, 9, 1, 11, 2, 11, 1, 0, 8, 3, -1],
   [11, 7, 4, 11, 4, 2, 2, 4, 0, -1],
   [11, 7, 4, 11, 4, 2, 8, 3, 4, 3, 2, 4, -1],
   [2, 9, 10, 2, 7, 9, 2, 3, 7, 7, 4, 9, -1],
   [9, 10, 7, 9, 7, 4, 10, 2, 7, 8, 7, 0, 2, 0, 7, -1],
   [3, 7, 10, 3, 10, 2, 7, 4, 10, 1, 10, 0, 4, 0, 10, -1],
   [1, 10, 2, 8, 7, 4, -1],
   [4, 9, 1, 4, 1, 7, 7, 1, 3, -1],
   [4, 9, 1, 4, 1, 7, 0, 8, 1, 8, 7, 1, -1],
   [4, 0, 3, 7, 4, 3, -1],
   [4, 8, 7, -1],
   [9, 10, 8, 10, 11, 8, -1],
   [3, 0, 9, 3, 9, 11, 11, 9, 10, -1],
   [0, 1, 10, 0, 10, 8, 8, 10, 11, -1],
   [3, 1, 10, 11, 3, 10, -1],
   [1, 2, 11, 1, 11, 9, 9, 11, 8, -1],
   [3, 0, 9, 3, 9, 11, 1, 2, 9, 2, 11, 9, -1],
   [0, 2, 11, 8, 0, 11, -1],
   [3, 2, 11, -1],
   [2, 3, 8, 2, 8, 10, 10, 8, 9, -1],
   [9, 10, 2, 0, 9, 2, -1],
   [2, 3, 8, 2, 8, 10, 0, 1, 8, 1, 10, 8, -1],
   [1, 10, 2, -1],
   [1, 3, 8, 9, 1, 8, -1],
   [0, 9, 1, -1],
   [0, 3, 8, -1],
   [-1]]

/-- Concatenation of the images of `f`, in order (the way the nested
`for` loops of `marchingCubes` append into the `vertices` array). -/
def listJoinMap (f : α → List β) : List α → List β
  | [] => []
  | a :: l => f a ++ listJoinMap f l

/-- The values a JS loop `for (v = 0; v < bound; v += 2)` visits. -/
def stepRange (bound : ℤ) : List ℕ :=
  (List.range bound.toNat).filter (fun i => i % 2 = 0)

/-- The 12 entries of the `edgeVertices` array: entry `e` is interpolated
exactly when bit `e` of the edge-table entry is set, between the two
corners of edge `e`. -/
def edgeVertsOf (corners : List Pt) (cubeValues : List ℚ) (threshold : ℚ)
    (edges : ℕ) : List (Option Pt) :=
  let pt := fun i => corners.getD i ⟨0, 0, 0⟩
  let cv := fun i => cubeValues.getD i 0
  let mk := fun (mask a b : ℕ) =>
    if edges &&& mask ≠ 0 then
      some (interpolateEdge (pt a) (pt b) (cv a) (cv b) threshold)
    else none
  [mk 1 0 1, mk 2 1 2, mk 4 2 3, mk 8 3 0,
   mk 16 4 5, mk 32 5 6, mk 64 6 7, mk 128 7 4,
   mk 256 0 4, mk 512 1 5, mk 1024 2 6, mk 2048 3 7]

/-- The triangle-emission loop: walk the triangle-table row three entries
at a time until the `-1` sentinel, pushing the 9 coordinates of a triangle
only when all three edge vertices were computed. -/
def emitTriangles (edgeVertices : List (Option Pt)) : List ℤ → List ℚ
  | a :: b :: c :: rest =>
    if a = -1 then []
    else
      match edgeVertices.getD a.toNat none, edgeVertices.getD b.toNat none,
          edgeVertices.getD c.toNat none with
      | some v0, some v1, some v2 =>
        [v0.x, v0.y, v0.z, v1.x, v1.y, v1.z, v2.x, v2.y, v2.z] ++
          emitTriangles edgeVertices rest
      | _, _, _ => emitTriangles edgeVertices rest
  | _ => []

/-- The body of the innermost loop of `VolumeRenderer.marchingCubes` for
the cell whose low corner is `(x, y, z)`: classify, skip when the edge
table says the cell is uniform, otherwise interpolate the active edges
and emit triangles. -/
def processCube (vol : NiftiVolume) (threshold : ℚ) (x y z : ℕ) : List ℚ :=
  let cubeValues := cubeValuesAt vol x y z
  let cubeIndex := cubeIndexOf threshold cubeValues
  if edgeTable.getD cubeIndex 0 = 0 then []
  else
    let corners := getCubeCorners vol x y z 2
    let edgeVertices :=
      edgeVertsOf corners cubeValues threshold (edgeTable.getD cubeIndex 0)
    emitTriangles edgeVertices (List.getD triTable cubeIndex [-1])

/-- `VolumeRenderer.marchingCubes` (the geometry it produces): the flat
vertex buffer of one complete pass at the stored threshold, sampling
stride 2 on each axis. -/
def marchingCubes (vol : NiftiVolume) (threshold : ℚ) : List ℚ :=
  listJoinMap (fun z =>
    listJoinMap (fun y =>
      listJoinMap (fun x => processCube vol threshold x y z)
        (stepRange (vol.dimensions.x - 1)))
      (stepRange (vol.dimensions.y - 1)))
    (stepRange (vol.dimensions.z - 1))

/-- `totalSlices = Math.floor((dims.z - 1) / step)` with `step = 2`. -/
def totalSlices (vol : NiftiVolume) : ℤ := ⌊((vol.dimensions.z : ℚ) - 1) / 2⌋

/-- Observable scheduling events of one `marchingCubes` run: a processed
z-slab, a progress-callback invocation, or a yield of control
(`await setTimeout(0)`). -/
inductive MCEvent where
  | slab (z : ℕ)
  | progress (frac : ℚ)
  | yieldCtl
deriving DecidableEq, Repr

/-- Pair each element with its position starting at `k`. -/
def enumFrom (k : ℕ) : List α → List (ℕ × α)
  | [] => []
  | a :: l => (k, a) :: enumFrom (k + 1) l

/-- The events one z-slab contributes to the scheduling trace: the slab
itself, then — only when a callback was supplied and
`processedSlices % 10 === 0` — a progress invocation with
`processedSlices / totalSlices` followed by one yield
(`await …setTimeout(…, 0)`).  Here `iz.1` is the zero-based slab counter,
so `processedSlices = iz.1 + 1`. -/
def traceChunk (vol : NiftiVolume) (hasCallback : Bool) (iz : ℕ × ℕ) :
    List MCEvent :=
  MCEvent.slab iz.2 ::
    (if hasCallback = true ∧ (iz.1 + 1) % 10 = 0 then
      [MCEvent.progress ((iz.1 + 1 : ℚ) / (totalSlices vol : ℚ)),
       MCEvent.yieldCtl]
    else [])

/-- The scheduling trace of one `VolumeRenderer.marchingCubes` run. -/
def marchingCubesTrace (vol : NiftiVolume) (hasCallback : Bool) :
    List MCEvent :=
  listJoinMap (traceChunk vol hasCallback)
    (enumFrom 0 (stepRange (vol.dimensions.z - 1)))

/-- Recognizer for slab events. -/
def isSlabEvt : MCEvent → Bool
  | .slab _ => true
  | _ => false

/-- Recognizer for progress-callback events. -/
def isProgressEvt : MCEvent → Bool
  | .progress _ => true
  | _ => false

/-- Recognizer for yield events. -/
def isYieldEvt : MCEvent → Bool
  | .yieldCtl => true
  | _ => false

/-- `VolumeRenderer.generateSurface(threshold)`: a non-null argument
overwrites `this.surfaceThreshold`; the marching-cubes pass then runs at
the stored threshold.  Returns the new state and the vertex buffer. -/
def generateSurface (vol : NiftiVolume) (s : RendererState)
    (threshold : Option ℚ) : RendererState × List ℚ :=
  let s' := match threshold with
    | some t => { s with surfaceThreshold := t }
    | none => s
  (s', marchingCubes vol s'.surfaceThreshold)

/-- The windowing formula in the words of the specification sentence
(`clamp(((v*255 - center)/width)*255, 0, 255)` with `center = level·255`,
`width' = width·255` and `v` the normalized voxel value), stated here only
to compare against the behaviour of `applyWindowing`. -/
def specWindowFormula (level width v : ℚ) : ℚ :=
  max 0 (min 255 ((v * 255 - level * 255) / (width * 255) * 255))

/-- The slice-index invariant of the renderer: every stored plane index
lies within `[0, axisDimension - 1]`. -/
def sliceIndexInv (vol : NiftiVolume) (s : RendererState) : Prop :=
  0 ≤ s.axialIndex ∧ s.axialIndex ≤ vol.dimensions.z - 1 ∧
  0 ≤ s.coronalIndex ∧ s.coronalIndex ≤ vol.dimensions.y - 1 ∧
  0 ≤ s.sagittalIndex ∧ s.sagittalIndex ≤ vol.dimensions.x - 1

/-! ### Concrete inputs used by witnesses and counterexamples -/

/-- Byte `i` of `wbuf`: magic `'n+1\0'`, `dim = [3,1,1,1,0,…]`,
`datatype = 2` (uint8), everything else zero. -/
def wbyte (i : ℕ) : ℕ :=
  if i = 40 then 3
  else if i = 42 then 1
  else if i = 44 then 1
  else if i = 46 then 1
  else if i = 70 then 2
  else if i = 344 then 110
  else if i = 345 then 43
  else if i = 346 then 49
  else 0

/-- A well-formed 353-byte NIfTI-1 buffer holding a single zero voxel. -/
def wbuf : Buffer := (List.range 353).map wbyte

/-- The volume `parseNifti` produces from `wbuf`. -/
def wvol : NiftiVolume :=
  { header :=
      { sizeof_hdr := 0
        dim := [3, 1, 1, 1, 0, 0, 0, 0]
        datatype := 2
        bitpix := 0
        pixdim := [0, 0, 0, 0, 0, 0, 0, 0]
        vox_offset := 0
        scl_slope := 1
        scl_inter := 0
        qform_code := 0
        sform_code := 0 }
    dimensions := ⟨1, 1, 1⟩
    voxelSize := ⟨0, 0, 0⟩
    imageData := [0]
    dataMin := 0
    dataMax := 0 }

/-- Byte `i` of the uniform two-voxel buffer `c3buf`:
`dim = [3,2,1,1,…]`, both body bytes `5`. -/
def c3byte (i : ℕ) : ℕ :=
  if i = 40 then 3
  else if i = 42 then 2
  else if i = 44 then 1
  else if i = 46 then 1
  else if i = 70 then 2
  else if i = 344 then 110
  else if i = 345 then 43
  else if i = 346 then 49
  else if i = 352 then 5
  else if i = 353 then 5
  else 0

/-- A valid buffer whose decoded field is constant (both voxels `5`). -/
def c3buf : Buffer := (List.range 354).map c3byte

/-- The volume `parseNifti` produces from `c3buf`: a uniform field with
`dataMin = dataMax = 5`. -/
def c3vol : NiftiVolume :=
  { header :=
      { sizeof_hdr := 0
        dim := [3, 2, 1, 1, 0, 0, 0, 0]
        datatype := 2
        bitpix := 0
        pixdim := [0, 0, 0, 0, 0, 0, 0, 0]
        vox_offset := 0
        scl_slope := 1
        scl_inter := 0
        qform_code := 0
        sform_code := 0 }
    dimensions := ⟨2, 1, 1⟩
    voxelSize := ⟨0, 0, 0⟩
    imageData := [5, 5]
    dataMin := 5
    dataMax := 5 }

/-- Byte `i` of `c3wbuf`: like `c3buf` but with body bytes `50` and
`200`, a non-constant field. -/
def c3wbyte (i : ℕ) : ℕ :=
  if i = 40 then 3
  else if i = 42 then 2
  else if i = 44 then 1
  else if i = 46 then 1
  else if i = 70 then 2
  else if i = 344 then 110
  else if i = 345 then 43
  else if i = 346 then 49
  else if i = 352 then 50
  else if i = 353 then 200
  else 0

/-- A valid buffer with two distinct voxel values (`50` and `200`). -/
def c3wbuf : Buffer := (List.range 354).map c3wbyte

/-- The volume `parseNifti` produces from `c3wbuf`. -/
def c3wvol : NiftiVolume :=
  { header :=
      { sizeof_hdr := 0
        dim := [3, 2, 1, 1, 0, 0, 0, 0]
        datatype := 2
        bitpix := 0
        pixdim := [0, 0, 0, 0, 0, 0, 0, 0]
        vox_offset := 0
        scl_slope := 1
        scl_inter := 0
        qform_code := 0
        sform_code := 0 }
    dimensions := ⟨2, 1, 1⟩
    voxelSize := ⟨0, 0, 0⟩
    imageData := [50, 200]
    dataMin := 50
    dataMax := 200 }

/-- A 2×2×2 volume whose field values are all negative
(`dataMin = -3 < dataMax = -1`), so the normalized value of the
out-of-range sentinel `0` is `3/2`, outside `[0, 1]`. -/
def c4vol : NiftiVolume :=
  { header :=
      { sizeof_hdr := 348
        dim := [3, 2, 2, 2, 1, 1, 1, 1]
        datatype := 16
        bitpix := 32
        pixdim := [1, 1, 1, 1, 1, 1, 1, 1]
        vox_offset := 352
        scl_slope := 1
        scl_inter := 0
        qform_code := 0
        sform_code := 0 }
    dimensions := ⟨2, 2, 2⟩
    voxelSize := ⟨1, 1, 1⟩
    imageData := [-3, -2, -1, -2, -2, -2, -2, -2]
    dataMin := -3
    dataMax := -1 }

/-- A 2×1×1 volume with values `0` and `100`. -/
def c6vol : NiftiVolume :=
  { header :=
      { sizeof_hdr := 348
        dim := [3, 2, 1, 1, 1, 1, 1, 1]
        datatype := 2
        bitpix := 8
        pixdim := [1, 1, 1, 1, 1, 1, 1, 1]
        vox_offset := 352
        scl_slope := 1
        scl_inter := 0
        qform_code := 0
        sform_code := 0 }
    dimensions := ⟨2, 1, 1⟩
    voxelSize := ⟨1, 1, 1⟩
    imageData := [0, 100]
    dataMin := 0
    dataMax := 100 }

/-- A 1×1×5 volume: its marching-cubes pass walks two z-slabs. -/
def c7vol : NiftiVolume :=
  { header :=
      { sizeof_hdr := 348
        dim := [3, 1, 1, 5, 1, 1, 1, 1]
        datatype := 2
        bitpix := 8
        pixdim := [1, 1, 1, 1, 1, 1, 1, 1]
        vox_offset := 352
        scl_slope := 1
        scl_inter := 0
        qform_code := 0
        sform_code := 0 }
    dimensions := ⟨1, 1, 5⟩
    voxelSize := ⟨1, 1, 1⟩
    imageData := [0, 1, 2, 3, 4]
    dataMin := 0
    dataMax := 4 }

/-! ### Generic helper lemmas -/

theorem except_bind_ok {ε α β : Type} {e : Except ε α} {f : α → Except ε β}
    {b : β} : (e >>= f) = .ok b ↔ ∃ a, e = .ok a ∧ f a = .ok b := by
  cases e <;> simp [Bind.bind, Except.bind]

theorem except_map_ok {ε α β : Type} {g : α → β} {e : Except ε α} {b : β}
    (h : e.map g = .ok b) : ∃ a, e = .ok a ∧ b = g a := by
  cases e with
  | error _ => simp [Except.map] at h
  | ok a => exact ⟨a, rfl, by simpa [Except.map, eq_comm] using h⟩

theorem exceptMapRange_ok {f : ℕ → Except PErr α} :
    ∀ {n : ℕ} {l : List α}, exceptMapRange f n = .ok l →
      l.length = n ∧ ∀ i, i < n → ∃ a, f i = .ok a ∧ l.get? i = some a := by
  intro n
  induction n with
  | zero =>
    intro l h
    simp only [exceptMapRange] at h
    cases h
    exact ⟨rfl, fun i hi => absurd hi (Nat.not_lt_zero i)⟩
  | succ n ih =>
    intro l h
    rw [exceptMapRange] at h
    cases hxs : exceptMapRange f n with
    | error e => rw [hxs] at h; exact absurd h (by simp)
    | ok xs =>
      cases hx : f n with
      | error e => rw [hxs, hx] at h; exact absurd h (by simp)
      | ok x =>
        rw [hxs, hx] at h
        have hl : xs ++ [x] = l := by simpa using h
        subst hl
        obtain ⟨hlen, hget⟩ := ih hxs
        refine ⟨by simp [hlen], fun i hi => ?_⟩
        rcases Nat.lt_or_ge i n with hin | hin
        · obtain ⟨a, ha, hga⟩ := hget i hin
          exact ⟨a, ha, by rw [List.get?_append (by omega), hga]⟩
        · have hieq : i = n := by omega
          subst hieq
          refine ⟨x, hx, ?_⟩
          rw [← hlen, List.get?_concat_length]

theorem exceptMapRange_eq_ok {f : ℕ → Except PErr α} {g : ℕ → α} :
    ∀ {n : ℕ}, (∀ i, i < n → f i = .ok (g i)) →
      exceptMapRange f n = .ok ((List.range n).map g) := by
  intro n
  induction n with
  | zero => intro _; simp [exceptMapRange]
  | succ n ih =>
    intro h
    have hn : exceptMapRange f n = .ok ((List.range n).map g) :=
      ih fun i hi => h i (Nat.lt_succ_of_lt hi)
    rw [exceptMapRange, hn, h n (Nat.lt_succ_self n), List.range_succ,
      List.map_append, List.map_cons, List.map_nil]

theorem listJoinMap_eq_nil {f : α → List β} :
    ∀ {l : List α}, (∀ a ∈ l, f a = []) → listJoinMap f l = [] := by
  intro l
  induction l with
  | nil => intro _; rfl
  | cons a l ih =>
    intro h
    simp only [listJoinMap, h a (List.mem_cons_self a l),
      ih fun x hx => h x (List.mem_cons_of_mem a hx), List.nil_append]

theorem byteAt_ok {b : Buffer} {i : ℕ} (h : i < b.length) :
    byteAt b i = .ok (b.getD i 0) := by
  unfold byteAt
  rw [List.get?_eq_get h]
  simp [List.getD_eq_getElem?_getD, List.getElem?_eq_getElem h]

theorem except_ok_bind {ε α β : Type} {a : α} {f : α → Except ε β} :
    (Except.ok a : Except ε α) >>= f = f a := rfl

theorem getU8_ok {b : Buffer} {i : ℕ} (h : i < b.length) :
    getU8 b i = .ok (u8V b i) := byteAt_ok h

theorem getU16le_ok {b : Buffer} {off : ℕ} (h : off + 1 < b.length) :
    getU16le b off = .ok (u16V b off) := by
  unfold getU16le
  rw [byteAt_ok (by omega), byteAt_ok h]
  rfl

theorem getI16le_ok {b : Buffer} {off : ℕ} (h : off + 1 < b.length) :
    getI16le b off = .ok (toSigned 16 (u16V b off)) := by
  unfold getI16le
  rw [getU16le_ok h]
  rfl

theorem getU32le_ok {b : Buffer} {off : ℕ} (h : off + 3 < b.length) :
    getU32le b off = .ok (u32V b off) := by
  unfold getU32le
  rw [byteAt_ok (by omega), byteAt_ok (by omega), byteAt_ok (by omega),
    byteAt_ok h]
  rfl

theorem getI32le_ok {b : Buffer} {off : ℕ} (h : off + 3 < b.length) :
    getI32le b off = .ok (toSigned 32 (u32V b off)) := by
  unfold getI32le
  rw [getU32le_ok h]
  rfl

theorem getF32le_ok {b : Buffer} {off : ℕ} (h : off + 3 < b.length) :
    getF32le b off = .ok (decodeF32 (u32V b off)) := by
  unfold getF32le
  rw [getU32le_ok h]
  rfl

theorem getF64le_ok {b : Buffer} {off : ℕ} (h : off + 7 < b.length) :
    getF64le b off = .ok (decodeF64 (u64V b off)) := by
  unfold getF64le getU64le
  rw [getU32le_ok (show off + 3 < b.length by omega),
    getU32le_ok (show off + 4 + 3 < b.length by omega)]
  rfl

theorem foldl_jsMin_le_init : ∀ (l : List ℚ) (a : ℚ), l.foldl jsMin a ≤ a := by
  intro l
  induction l with
  | nil => intro a; exact le_refl a
  | cons x xs ih =>
    intro a
    calc (x :: xs).foldl jsMin a = xs.foldl jsMin (jsMin a x) := rfl
    _ ≤ jsMin a x := ih _
    _ ≤ a := by unfold jsMin; split <;> [exact le_of_lt (by assumption); exact le_refl a]

theorem foldl_jsMin_le_mem :
    ∀ (l : List ℚ) (a x : ℚ), x ∈ l → l.foldl jsMin a ≤ x := by
  intro l
  induction l with
  | nil => intro a x hx; exact absurd hx (List.not_mem_nil x)
  | cons y ys ih =>
    intro a x hx
    rcases List.mem_cons.mp hx with hxy | hxs
    · subst hxy
      calc (x :: ys).foldl jsMin a = ys.foldl jsMin (jsMin a x) := rfl
      _ ≤ jsMin a x := foldl_jsMin_le_init _ _
      _ ≤ x := by unfold jsMin; split <;> [exact le_refl x; exact le_of_not_lt (by assumption)]
    · exact ih (jsMin a y) x hxs

theorem foldl_jsMax_init_le : ∀ (l : List ℚ) (a : ℚ), a ≤ l.foldl jsMax a := by
  intro l
  induction l with
  | nil => intro a; exact le_refl a
  | cons x xs ih =>
    intro a
    calc a ≤ jsMax a x := by
          unfold jsMax; split <;> [exact le_of_lt (by assumption); exact le_refl a]
    _ ≤ xs.foldl jsMax (jsMax a x) := ih _
    _ = (x :: xs).foldl jsMax a := rfl

theorem foldl_jsMax_mem_le :
    ∀ (l : List ℚ) (a x : ℚ), x ∈ l → x ≤ l.foldl jsMax a := by
  intro l
  induction l with
  | nil => intro a x hx; exact absurd hx (List.not_mem_nil x)
  | cons y ys ih =>
    intro a x hx
    rcases List.mem_cons.mp hx with hxy | hxs
    · subst hxy
      calc x ≤ jsMax a x := by
            unfold jsMax; split <;> [exact le_refl x; exact le_of_not_lt (by assumption)]
      _ ≤ ys.foldl jsMax (jsMax a x) := foldl_jsMax_init_le _ _
      _ = (x :: ys).foldl jsMax a := rfl
    · exact ih (jsMax a y) x hxs

theorem scanMin_le {l : List ℚ} {x : ℚ} (hx : x ∈ l) : scanMin l ≤ x := by
  cases l with
  | nil => exact absurd hx (List.not_mem_nil x)
  | cons v vs =>
    rcases List.mem_cons.mp hx with hxy | hxs
    · subst hxy; exact foldl_jsMin_le_init vs x
    · exact foldl_jsMin_le_mem vs v x hxs

theorem le_scanMax {l : List ℚ} {x : ℚ} (hx : x ∈ l) : x ≤ scanMax l := by
  cases l with
  | nil => exact absurd hx (List.not_mem_nil x)
  | cons v vs =>
    rcases List.mem_cons.mp hx with hxy | hxs
    · subst hxy; exact foldl_jsMax_init_le vs x
    · exact foldl_jsMax_mem_le vs v x hxs

theorem getVoxel_zero_or_mem (vol : NiftiVolume) (x y z : ℤ) :
    getVoxel vol x y z = 0 ∨ getVoxel vol x y z ∈ vol.imageData := by
  unfold getVoxel
  split
  · exact Or.inl rfl
  · rcases Nat.lt_or_ge
      (x + y * vol.dimensions.x + z * vol.dimensions.x * vol.dimensions.y).toNat
      vol.imageData.length with hn | hn
    · refine Or.inr ?_
      have hgd : vol.imageData.getD
          (x + y * vol.dimensions.x + z * vol.dimensions.x * vol.dimensions.y).toNat 0 =
          vol.imageData.get ⟨_, hn⟩ := by
        simp [List.getD_eq_getElem?_getD, List.getElem?_eq_getElem hn]
      rw [hgd]
      exact List.get_mem _ _ hn
    · exact Or.inl (List.getD_eq_default _ _ hn)

/-! ### Inversion of a successful parse -/

theorem parseHeader_ok {b : Buffer} {hdr : NiftiHeader}
    (h : parseHeader b = .ok hdr) :
    ∃ hs m0 m1 m2 m3 dt bp vo sl si qf sf dimL pixL,
      getI32le b 0 = .ok hs ∧
      getU8 b 344 = .ok m0 ∧ getU8 b 345 = .ok m1 ∧
      getU8 b 346 = .ok m2 ∧ getU8 b 347 = .ok m3 ∧
      ([m0, m1, m2, m3] = magicNP1 ∨ [m0, m1, m2, m3] = magicNI1) ∧
      getI16le b 70 = .ok dt ∧ getI16le b 72 = .ok bp ∧
      getF32le b 108 = .ok vo ∧ getF32le b 112 = .ok sl ∧
      getF32le b 116 = .ok si ∧
      getI16le b 252 = .ok qf ∧ getI16le b 254 = .ok sf ∧
      exceptMapRange (fun i => getI16le b (40 + i * 2)) 8 = .ok dimL ∧
      exceptMapRange (fun i => getF32le b (76 + i * 4)) 8 = .ok pixL ∧
      hdr = { sizeof_hdr := hs, dim := dimL, datatype := dt, bitpix := bp,
              pixdim := pixL, vox_offset := vo,
              scl_slope := if sl = 0 then 1 else sl, scl_inter := si,
              qform_code := qf, sform_code := sf } := by
  rw [parseHeader] at h
  rw [except_bind_ok] at h
  obtain ⟨hs, h0, h⟩ := h
  simp only [except_bind_ok] at h
  obtain ⟨m0, h344, m1, h345, m2, h346, m3, h347, h⟩ := h
  split at h
  · exact absurd h (by simp)
  · rename_i hcond
    simp only [except_bind_ok] at h
    obtain ⟨dt, h70, bp, h72, vo, h108, sl, h112, si, h116, qf, h252, sf, h254,
      dimL, hdim, pixL, hpix, h⟩ := h
    have hmagic : [m0, m1, m2, m3] = magicNP1 ∨ [m0, m1, m2, m3] = magicNI1 := by
      by_contra hc
      push_neg at hc
      exact hcond ⟨hc.1, hc.2⟩
    refine ⟨hs, m0, m1, m2, m3, dt, bp, vo, sl, si, qf, sf, dimL, pixL,
      h0, h344, h345, h346, h347, hmagic, h70, h72, h108, h112, h116,
      h252, h254, hdim, hpix, ?_⟩
    exact (by simpa using h.symm)

theorem parseNifti_ok {b : Buffer} {vol : NiftiVolume}
    (h : parseNifti b = .ok vol) :
    ∃ hdr data,
      parseHeader b = .ok hdr ∧
      readImageData b (voxDataOffset hdr)
        ((hdr.dim.getD 1 0 * hdr.dim.getD 2 0 * hdr.dim.getD 3 0).toNat)
        hdr.datatype hdr.scl_slope hdr.scl_inter = .ok data ∧
      vol = { header := hdr
              dimensions := ⟨hdr.dim.getD 1 0, hdr.dim.getD 2 0, hdr.dim.getD 3 0⟩
              voxelSize := ⟨|hdr.pixdim.getD 1 0|, |hdr.pixdim.getD 2 0|,
                |hdr.pixdim.getD 3 0|⟩
              imageData := data
              dataMin := scanMin data
              dataMax := scanMax data } := by
  rw [parseNifti] at h
  rw [except_bind_ok] at h
  obtain ⟨hdr, hh, h⟩ := h
  simp only [except_bind_ok] at h
  obtain ⟨data, hread, h⟩ := h
  exact ⟨hdr, data, hh, hread, by simpa using h.symm⟩

/-! ### Claim C1 -/

/-- C1: for every raw voxel sample of a parsed volume, the stored field
value equals `decode_T(r) * s + b` where `s` is the header slope read at
offset 112 and `b` the intercept; when the stored slope is exactly `0`
the value equals `decode_T(r) + b` (slope treated as `1`). -/
theorem decode_scale_intercept {b : Buffer} {vol : NiftiVolume}
    (hp : parseNifti b = .ok vol) (i : ℕ) (hi : i < vol.imageData.length) :
    ∃ slope0 r,
      getF32le b 112 = .ok slope0 ∧
      decodeSample vol.header.datatype b (voxDataOffset vol.header) i = .ok r ∧
      (slope0 ≠ 0 → vol.imageData.getD i 0 = r * slope0 + vol.header.scl_inter) ∧
      (slope0 = 0 → vol.imageData.getD i 0 = r + vol.header.scl_inter) := by
  obtain ⟨hdr, data, hh, hread, hveq⟩ := parseNifti_ok hp
  obtain ⟨hs, m0, m1, m2, m3, dt, bp, vo, sl, si, qf, sf, dimL, pixL,
    h0, h344, h345, h346, h347, hmagic, h70, h72, h108, h112, h116,
    h252, h254, hdim, hpix, hheq⟩ := parseHeader_ok hh
  subst hveq
  rw [readImageData] at hread
  split at hread
  · exact absurd hread (by simp)
  · obtain ⟨hlen, hget⟩ := exceptMapRange_ok hread
    simp only at hi
    obtain ⟨a, hfa, hgeta⟩ := hget i (by omega)
    obtain ⟨r, hdec, harr⟩ := except_map_ok hfa
    have hgd : data.getD i 0 = a := by
      rw [List.getD_eq_getElem?_getD, ← List.get?_eq_getElem?, hgeta]
      rfl
    refine ⟨sl, r, h112, ?_, ?_, ?_⟩
    · simpa [hheq] using hdec
    · intro hsl
      simp only [hgd, harr, hheq, if_neg hsl]
    · intro hsl
      simp only [hgd, harr, hheq, if_pos hsl, mul_one]

set_option maxRecDepth 1000000 in
/-- Witness for C1: the theorem applied to the concrete buffer `wbuf`
(uint8 datatype, stored slope `0`, intercept `0`) at voxel `0`. -/
theorem decode_scale_intercept_witness :
    ∃ slope0 r,
      getF32le wbuf 112 = .ok slope0 ∧
      decodeSample wvol.header.datatype wbuf (voxDataOffset wvol.header) 0 = .ok r ∧
      (slope0 ≠ 0 → wvol.imageData.getD 0 0 = r * slope0 + wvol.header.scl_inter) ∧
      (slope0 = 0 → wvol.imageData.getD 0 0 = r + wvol.header.scl_inter) :=
  decode_scale_intercept (by decide) 0 (by decide)

/-! ### Claim C2 -/

/-- C2: any buffer (at least 348 bytes long, so that the magic offset is
readable) whose four bytes at offset 344 match neither `'n+1\0'` nor
`'ni1\0'` is rejected with the bad-magic error; no volume is produced. -/
theorem bad_magic_rejected {b : Buffer} (hlen : 348 ≤ b.length)
    (h1 : [b.getD 344 0, b.getD 345 0, b.getD 346 0, b.getD 347 0] ≠ magicNP1)
    (h2 : [b.getD 344 0, b.getD 345 0, b.getD 346 0, b.getD 347 0] ≠ magicNI1) :
    parseNifti b = .error .badMagic := by
  have hh : parseHeader b = .error .badMagic := by
    rw [parseHeader, getI32le_ok (by omega), getU8_ok (by omega),
      getU8_ok (by omega), getU8_ok (by omega), getU8_ok (by omega)]
    simp only [except_ok_bind]
    split
    · rfl
    · rename_i hc
      exact absurd ⟨h1, h2⟩ hc
  rw [parseNifti, hh]
  rfl

set_option maxRecDepth 1000000 in
/-- Witness for C2: a 348-byte all-zero buffer is rejected as malformed. -/
theorem bad_magic_rejected_witness :
    parseNifti (List.replicate 348 0) = .error .badMagic :=
  bad_magic_rejected (by decide) (by decide) (by decide)

/-! ### Claim C3 -/

set_option maxRecDepth 1000000 in
/-- Counterexample to C3: on the parsed uniform volume `c3vol` (both
voxels `5`, so `dataMin = dataMax`), voxel `(0,0,0)` achieves the maximum
yet its normalized value is not `1.0` — the denominator
`dataMax - dataMin` is `0` (in JS the division `0/0` yields `NaN`, which
also differs from `1.0`; in this `ℚ` model division by zero yields `0`). -/
theorem minmax_uniform_counterexample :
    parseNifti c3buf = Except.ok c3vol ∧
    getVoxel c3vol 0 0 0 = c3vol.dataMax ∧
    getNormalizedVoxel c3vol 0 0 0 ≠ 1 := by decide

/-- C3 (amended): after a successful parse every voxel lies between the
scanned `dataMin` and `dataMax`; and provided the field is not constant
(`dataMin < dataMax`), the normalized value is exactly `0` wherever the
sampled value equals `dataMin` and exactly `1` wherever it equals
`dataMax`. -/
theorem minmax_normalization {b : Buffer} {vol : NiftiVolume}
    (hp : parseNifti b = .ok vol) :
    (∀ i, i < vol.imageData.length →
      vol.dataMin ≤ vol.imageData.getD i 0 ∧
      vol.imageData.getD i 0 ≤ vol.dataMax) ∧
    (vol.dataMin < vol.dataMax →
      ∀ x y z : ℤ,
        (getVoxel vol x y z = vol.dataMin → getNormalizedVoxel vol x y z = 0) ∧
        (getVoxel vol x y z = vol.dataMax → getNormalizedVoxel vol x y z = 1)) := by
  obtain ⟨hdr, data, hh, hread, hveq⟩ := parseNifti_ok hp
  subst hveq
  constructor
  · intro i hi
    have hmem : data.getD i 0 ∈ data := by
      have hgd : data.getD i 0 = data.get ⟨i, hi⟩ := by
        simp [List.getD_eq_getElem?_getD, List.getElem?_eq_getElem hi]
      rw [hgd]
      exact List.get_mem _ _ hi
    exact ⟨scanMin_le hmem, le_scanMax hmem⟩
  · intro hlt x y z
    constructor
    · intro hmin
      rw [getNormalizedVoxel, hmin]
      simp
    · intro hmax
      rw [getNormalizedVoxel, hmax]
      exact div_self (sub_ne_zero.mpr (ne_of_gt hlt))

set_option maxRecDepth 1000000 in
/-- Witness for C3: on the parsed two-valued volume `c3wvol`
(voxels `50` and `200`), the bounds hold and the normalized values at the
min- and max-achieving voxels are exactly `0` and `1`. -/
theorem minmax_normalization_witness :
    c3wvol.dataMin ≤ c3wvol.imageData.getD 0 0 ∧
    c3wvol.imageData.getD 0 0 ≤ c3wvol.dataMax ∧
    getNormalizedVoxel c3wvol 0 0 0 = 0 ∧
    getNormalizedVoxel c3wvol 1 0 0 = 1 := by
  have h := @minmax_normalization c3wbuf c3wvol (by decide)
  refine ⟨(h.1 0 (by decide)).1, (h.1 0 (by decide)).2, ?_, ?_⟩
  · exact (h.2 (by decide) 0 0 0).1 (by decide)
  · exact (h.2 (by decide) 1 0 0).2 (by decide)

/-! ### Claim C4 -/

theorem cubeIndexOf_all_below {t : ℚ} {cv : List ℚ}
    (h : ∀ i, i < 8 → ¬ cv.getD i 0 > t) : cubeIndexOf t cv = 0 := by
  unfold cubeIndexOf
  rw [show List.range 8 = [0, 1, 2, 3, 4, 5, 6, 7] from rfl]
  simp only [List.foldl_cons, List.foldl_nil]
  rw [if_neg (h 0 (by omega)), if_neg (h 1 (by omega)), if_neg (h 2 (by omega)),
    if_neg (h 3 (by omega)), if_neg (h 4 (by omega)), if_neg (h 5 (by omega)),
    if_neg (h 6 (by omega)), if_neg (h 7 (by omega))]

theorem cubeIndexOf_all_above {t : ℚ} {cv : List ℚ}
    (h : ∀ i, i < 8 → cv.getD i 0 > t) : cubeIndexOf t cv = 255 := by
  unfold cubeIndexOf
  rw [show List.range 8 = [0, 1, 2, 3, 4, 5, 6, 7] from rfl]
  simp only [List.foldl_cons, List.foldl_nil]
  rw [if_pos (h 0 (by omega)), if_pos (h 1 (by omega)), if_pos (h 2 (by omega)),
    if_pos (h 3 (by omega)), if_pos (h 4 (by omega)), if_pos (h 5 (by omega)),
    if_pos (h 6 (by omega)), if_pos (h 7 (by omega))]
  decide

theorem processCube_below {vol : NiftiVolume} {t : ℚ}
    (h : ∀ x y z : ℤ, getNormalizedVoxel vol x y z < t) (x y z : ℕ) :
    processCube vol t x y z = [] := by
  have hidx : cubeIndexOf t (cubeValuesAt vol x y z) = 0 := by
    apply cubeIndexOf_all_below
    intro i hi
    interval_cases i <;> exact lt_asymm (h _ _ _)
  simp only [processCube, hidx]
  rw [if_pos (show List.getD edgeTable 0 0 = 0 by decide)]

theorem processCube_above {vol : NiftiVolume} {t : ℚ}
    (h : ∀ x y z : ℤ, t < getNormalizedVoxel vol x y z) (x y z : ℕ) :
    processCube vol t x y z = [] := by
  have hidx : cubeIndexOf t (cubeValuesAt vol x y z) = 255 := by
    apply cubeIndexOf_all_above
    intro i hi
    interval_cases i <;> exact h _ _ _
  simp only [processCube, hidx]
  rw [if_pos (show List.getD edgeTable 255 0 = 0 by decide)]

set_option maxRecDepth 1000000 in
/-- Counterexample to C4: every voxel of the field of `c4vol` has
normalized value strictly below the threshold `6/5` (the field is uniform
with respect to the threshold, and its `dataMin`/`dataMax` are exactly the
min/max scans of the field), yet the marching-cubes pass emits one
triangle.  The boundary cube probes out-of-range coordinates, whose
sentinel value `0` normalizes to `3/2 > 6/5` because the whole field is
negative. -/
theorem mc_sentinel_counterexample :
    (∀ v ∈ c4vol.imageData,
      (v - c4vol.dataMin) / (c4vol.dataMax - c4vol.dataMin) < 6 / 5) ∧
    c4vol.dataMin = scanMin c4vol.imageData ∧
    c4vol.dataMax = scanMax c4vol.imageData ∧
    marchingCubes c4vol (6 / 5) =
      [6 / 5, -2, -2, -2, 6 / 5, -2, -2, -2, 6 / 5] := by decide

/-- C4 (amended): when every normalized sample the pass can read —
including the out-of-range zero-sentinel samples probed at boundary
cubes — is strictly below the threshold, or every such sample is strictly
above it, a complete marching-cubes pass emits no triangles. -/
theorem mc_uniform_field_empty (vol : NiftiVolume) (t : ℚ)
    (h : (∀ x y z : ℤ, getNormalizedVoxel vol x y z < t) ∨
         (∀ x y z : ℤ, t < getNormalizedVoxel vol x y z)) :
    marchingCubes vol t = [] := by
  unfold marchingCubes
  apply listJoinMap_eq_nil
  intro z hz
  apply listJoinMap_eq_nil
  intro y hy
  apply listJoinMap_eq_nil
  intro x hx
  cases h with
  | inl hb => exact processCube_below hb x y z
  | inr ha => exact processCube_above ha x y z

/-- Witness for C4 (amended): on `c6vol` every normalized sample
(including the sentinel) is below `2`, and the pass is empty. -/
theorem mc_uniform_field_empty_witness : marchingCubes c6vol 2 = [] := by
  apply mc_uniform_field_empty
  left
  intro x y z
  rcases getVoxel_zero_or_mem c6vol x y z with h | h
  · rw [getNormalizedVoxel, h]
    decide
  · have hv : getVoxel c6vol x y z = 0 ∨ getVoxel c6vol x y z = 100 := by
      simpa [c6vol] using h
    rcases hv with hv | hv <;> rw [getNormalizedVoxel, hv] <;> decide

/-! ### Claim C5 -/

/-- Counterexample to C5: with `v1 = 0`, `v2 = 1e-6` and
`threshold = v2` (the threshold exactly equals corner 2's value), the
first epsilon short-circuit `|threshold - v1| < 1e-5` fires and
`interpolateEdge` returns `p1`, not `p2`. -/
theorem interp_endpoint_counterexample :
    interpolateEdge ⟨0, 0, 0⟩ ⟨1, 0, 0⟩ 0 (1 / 1000000) (1 / 1000000) =
      ⟨0, 0, 0⟩ ∧
    (⟨0, 0, 0⟩ : Pt) ≠ ⟨1, 0, 0⟩ := by decide

/-- C5 (amended): `interpolateEdge` short-circuits on epsilon closeness
(`1e-5`), not exact equality.  When the threshold equals `v1` the result
is exactly `p1`; when it equals `v2` the result is exactly `p2` provided
`v1` is not within epsilon of the threshold; and when all three epsilon
tests fail the result is the linear interpolation at
`t = (threshold - v1)/(v2 - v1)`. -/
theorem interp_edge_cases (p1 p2 : Pt) (v1 v2 t : ℚ) :
    (t = v1 → interpolateEdge p1 p2 v1 v2 t = p1) ∧
    (¬ |t - v1| < 1 / 100000 → t = v2 → interpolateEdge p1 p2 v1 v2 t = p2) ∧
    (¬ |t - v1| < 1 / 100000 → ¬ |t - v2| < 1 / 100000 →
      ¬ |v1 - v2| < 1 / 100000 →
      interpolateEdge p1 p2 v1 v2 t =
        { x := p1.x + (t - v1) / (v2 - v1) * (p2.x - p1.x)
          y := p1.y + (t - v1) / (v2 - v1) * (p2.y - p1.y)
          z := p1.z + (t - v1) / (v2 - v1) * (p2.z - p1.z) }) := by
  refine ⟨?_, ?_, ?_⟩
  · intro h
    subst h
    rw [interpolateEdge, if_pos (by rw [sub_self, abs_zero]; norm_num)]
  · intro h1 h2
    subst h2
    rw [interpolateEdge, if_neg h1, if_pos (by rw [sub_self, abs_zero]; norm_num)]
  · intro h1 h2 h3
    rw [interpolateEdge, if_neg h1, if_neg h2, if_neg h3]

/-- Witness for C5: at `t = v1 = 0` the interpolated point is exactly the
first corner. -/
theorem interp_edge_cases_witness :
    interpolateEdge ⟨0, 0, 0⟩ ⟨1, 1, 1⟩ 0 1 0 = ⟨0, 0, 0⟩ :=
  (interp_edge_cases ⟨0, 0, 0⟩ ⟨1, 1, 1⟩ 0 1 0).1 rfl

/-! ### Claim C6 -/

theorem windowLoop_quads {level width : ℚ} {f : α → ℕ} :
    ∀ (l : List α) (rest : List ℕ),
      windowLoop level width ((l.flatMap fun a => [f a, f a, f a, 255]) ++ rest) =
        (l.flatMap fun a => [windowPixel level width (f a),
          windowPixel level width (f a), windowPixel level width (f a), 255]) ++
          windowLoop level width rest := by
  intro l
  induction l with
  | nil => intro rest; rfl
  | cons a l ih =>
    intro rest
    simp only [List.flatMap_cons, List.cons_append, List.append_assoc]
    rw [windowLoop]
    simp only [List.nil_append, ih]

theorem windowLoop_nested {level width : ℚ} {g : β → α → ℕ} :
    ∀ (ys : List β) (xs : List α),
      windowLoop level width
        (ys.flatMap fun y => xs.flatMap fun x => [g y x, g y x, g y x, 255]) =
      ys.flatMap fun y => xs.flatMap fun x =>
        [windowPixel level width (g y x), windowPixel level width (g y x),
         windowPixel level width (g y x), 255] := by
  intro ys
  induction ys with
  | nil => intro xs; rfl
  | cons y ys ih =>
    intro xs
    simp only [List.flatMap_cons]
    rw [windowLoop_quads xs, ih]

set_option maxRecDepth 1000000 in
/-- Counterexample to C6: at `level = 0.5`, `width = 1.0` the code's
windowing is the identity (`min = center - width'/2 = 0`), so the pixel
sampling the voxel with normalized value `1` stays `255`; the claim's
formula `clamp(((v·255 - center)/width')·255, 0, 255)` (subtracting
`center` itself, not `center - width'/2`) would give `127.5` instead. -/
theorem windowing_center_counterexample :
    applyWindowing (1 / 2) 1 (getSlice c6vol Plane.axial 0) =
      [0, 0, 0, 255, 255, 255, 255, 255] ∧
    getNormalizedVoxel c6vol 1 0 0 = 1 ∧
    specWindowFormula (1 / 2) 1 1 = 255 / 2 ∧
    ((255 : ℚ) ≠ 255 / 2) := by decide

/-- C6 (amended): every pixel of a windowed slice, on each of the three
planes, is opaque grayscale `R = G = B = windowed`, `A = 255`, where
`windowed = toUint8Clamp (clamp(((val8 - (center - width'/2)) /
(width'))·255, 0, 255))` with `center = level·255`, `width' = width·255`,
and `val8 = toUint8Clamp ⌊v·255⌋` the 8-bit quantized normalized voxel
value the slice raster already holds (`windowPixel` spells out exactly
this formula); the coronal and sagittal rasters carry their rows in
descending `z` order (the source's `(height - 1 - z)` vertical flip), the
axial raster is unflipped. -/
theorem windowed_slice_pixels (vol : NiftiVolume) (k : ℤ) (level width : ℚ) :
    (applyWindowing level width (getSlice vol Plane.axial k) =
      (List.range vol.dimensions.y.toNat).flatMap fun y =>
        (List.range vol.dimensions.x.toNat).flatMap fun x =>
          [windowPixel level width (slicePixelValue vol x y k),
           windowPixel level width (slicePixelValue vol x y k),
           windowPixel level width (slicePixelValue vol x y k), 255]) ∧
    (applyWindowing level width (getSlice vol Plane.coronal k) =
      ((List.range vol.dimensions.z.toNat).reverse).flatMap fun z =>
        (List.range vol.dimensions.x.toNat).flatMap fun x =>
          [windowPixel level width (slicePixelValue vol x k z),
           windowPixel level width (slicePixelValue vol x k z),
           windowPixel level width (slicePixelValue vol x k z), 255]) ∧
    (applyWindowing level width (getSlice vol Plane.sagittal k) =
      ((List.range vol.dimensions.z.toNat).reverse).flatMap fun z =>
        (List.range vol.dimensions.y.toNat).flatMap fun y =>
          [windowPixel level width (slicePixelValue vol k y z),
           windowPixel level width (slicePixelValue vol k y z),
           windowPixel level width (slicePixelValue vol k y z), 255]) := by
  refine ⟨?_, ?_, ?_⟩
  · show windowLoop level width (getSliceAxial vol k) = _
    rw [show getSliceAxial vol k =
        (List.range vol.dimensions.y.toNat).flatMap fun y =>
          (List.range vol.dimensions.x.toNat).flatMap fun x =>
            [slicePixelValue vol x y k, slicePixelValue vol x y k,
             slicePixelValue vol x y k, 255] from rfl]
    exact windowLoop_nested
      (g := fun (y : ℕ) (x : ℕ) => slicePixelValue vol x y k) _ _
  · show windowLoop level width (getSliceCoronal vol k) = _
    rw [show getSliceCoronal vol k =
        ((List.range vol.dimensions.z.toNat).reverse).flatMap fun z =>
          (List.range vol.dimensions.x.toNat).flatMap fun x =>
            [slicePixelValue vol x k z, slicePixelValue vol x k z,
             slicePixelValue vol x k z, 255] from rfl]
    exact windowLoop_nested
      (g := fun (z : ℕ) (x : ℕ) => slicePixelValue vol x k z) _ _
  · show windowLoop level width (getSliceSagittal vol k) = _
    rw [show getSliceSagittal vol k =
        ((List.range vol.dimensions.z.toNat).reverse).flatMap fun z =>
          (List.range vol.dimensions.y.toNat).flatMap fun y =>
            [slicePixelValue vol k y z, slicePixelValue vol k y z,
             slicePixelValue vol k y z, 255] from rfl]
    exact windowLoop_nested
      (g := fun (z : ℕ) (y : ℕ) => slicePixelValue vol k y z) _ _

/-! ### Claim C7 -/

theorem trace_false_slabs (vol : NiftiVolume) :
    ∀ (l : List ℕ) (k : ℕ),
      listJoinMap (traceChunk vol false) (enumFrom k l) = l.map MCEvent.slab := by
  intro l
  induction l with
  | nil => intro k; rfl
  | cons a l ih =>
    intro k
    simp [enumFrom, listJoinMap, traceChunk, ih (k + 1)]

theorem trace_slab_count (vol : NiftiVolume) (hc : Bool) :
    ∀ (l : List ℕ) (k : ℕ),
      (listJoinMap (traceChunk vol hc) (enumFrom k l)).countP isSlabEvt =
        l.length := by
  intro l
  induction l with
  | nil => intro k; rfl
  | cons a l ih =>
    intro k
    simp only [enumFrom, listJoinMap, List.countP_append, ih (k + 1)]
    by_cases h : hc = true ∧ (k + 1) % 10 = 0 <;>
      simp [traceChunk, isSlabEvt, h, List.countP_cons] <;> omega

theorem trace_yield_count (vol : NiftiVolume) :
    ∀ (l : List ℕ) (k : ℕ),
      (listJoinMap (traceChunk vol true) (enumFrom k l)).countP isYieldEvt =
        (k + l.length) / 10 - k / 10 := by
  intro l
  induction l with
  | nil => intro k; simp [listJoinMap, enumFrom]
  | cons a l ih =>
    intro k
    simp only [enumFrom, listJoinMap, List.countP_append, ih (k + 1)]
    by_cases h : (k + 1) % 10 = 0 <;>
      simp [traceChunk, isYieldEvt, h, List.countP_cons, List.length_cons] <;>
      omega

theorem trace_progress_count (vol : NiftiVolume) :
    ∀ (l : List ℕ) (k : ℕ),
      (listJoinMap (traceChunk vol true) (enumFrom k l)).countP isProgressEvt =
        (k + l.length) / 10 - k / 10 := by
  intro l
  induction l with
  | nil => intro k; simp [listJoinMap, enumFrom]
  | cons a l ih =>
    intro k
    simp only [enumFrom, listJoinMap, List.countP_append, ih (k + 1)]
    by_cases h : (k + 1) % 10 = 0 <;>
      simp [traceChunk, isProgressEvt, h, List.countP_cons, List.length_cons] <;>
      omega

/-- Counterexample to C7: the 1×1×5 volume `c7vol` yields two z-slabs but
`processedSlices % 10 === 0` never fires, so no progress callback and no
yield occur at all — two slabs run between yields and the callback is not
invoked after each slab. -/
theorem progress_not_each_slab :
    marchingCubesTrace c7vol true = [MCEvent.slab 0, MCEvent.slab 2] ∧
    (marchingCubesTrace c7vol true).countP isProgressEvt = 0 ∧
    (marchingCubesTrace c7vol true).countP isYieldEvt = 0 ∧
    (marchingCubesTrace c7vol true).countP isSlabEvt = 2 := by decide

/-- C7 (amended): the progress callback is invoked — each invocation
immediately followed by exactly one yield — only after every 10th z-slab,
and only when a callback was supplied: the trace contains one slab event
per slab, and `⌊slabs/10⌋` progress and yield events (none at all without
a callback), so up to 10 slabs, not 1, run between consecutive yields. -/
theorem progress_every_tenth_slab (vol : NiftiVolume) :
    marchingCubesTrace vol false =
      (stepRange (vol.dimensions.z - 1)).map MCEvent.slab ∧
    (marchingCubesTrace vol true).countP isSlabEvt =
      (stepRange (vol.dimensions.z - 1)).length ∧
    (marchingCubesTrace vol true).countP isProgressEvt =
      (stepRange (vol.dimensions.z - 1)).length / 10 ∧
    (marchingCubesTrace vol true).countP isYieldEvt =
      (stepRange (vol.dimensions.z - 1)).length / 10 := by
  refine ⟨trace_false_slabs vol _ 0, trace_slab_count vol true _ 0, ?_, ?_⟩
  · simpa using trace_progress_count vol (stepRange (vol.dimensions.z - 1)) 0
  · simpa using trace_yield_count vol (stepRange (vol.dimensions.z - 1)) 0

/-! ### Claim C8 -/

/-- C8: out-of-range coordinates make `getVoxel` return the sentinel `0`,
so `getNormalizedVoxel` returns `(0 - dataMin)/(dataMax - dataMin)`; for a
non-degenerate range that value is `0` exactly when `dataMin = 0`,
negative when `dataMin > 0` and positive when `dataMin < 0`.  (The
degenerate case `dataMin = dataMax`, where JS divides by zero into
`±Infinity`/`NaN`, is unrepresentable in `ℚ` and excluded by the
hypothesis.) -/
theorem oob_sentinel_normalized (vol : NiftiVolume) (x y z : ℤ)
    (hoob : x < 0 ∨ vol.dimensions.x ≤ x ∨ y < 0 ∨ vol.dimensions.y ≤ y ∨
      z < 0 ∨ vol.dimensions.z ≤ z) :
    getVoxel vol x y z = 0 ∧
    getNormalizedVoxel vol x y z =
      (0 - vol.dataMin) / (vol.dataMax - vol.dataMin) ∧
    (vol.dataMin < vol.dataMax →
      (getNormalizedVoxel vol x y z = 0 ↔ vol.dataMin = 0) ∧
      (0 < vol.dataMin → getNormalizedVoxel vol x y z < 0) ∧
      (vol.dataMin < 0 → 0 < getNormalizedVoxel vol x y z)) := by
  have hv : getVoxel vol x y z = 0 := by
    rw [getVoxel, if_pos hoob]
  have hn : getNormalizedVoxel vol x y z =
      (0 - vol.dataMin) / (vol.dataMax - vol.dataMin) := by
    rw [getNormalizedVoxel, hv]
  refine ⟨hv, hn, fun hlt => ?_⟩
  have hd : 0 < vol.dataMax - vol.dataMin := sub_pos.mpr hlt
  refine ⟨?_, ?_, ?_⟩
  · rw [hn]
    constructor
    · intro h0
      rcases div_eq_zero_iff.mp h0 with hnum | hden
      · linarith
      · exact absurd hden (ne_of_gt hd)
    · intro h0
      rw [h0]
      simp
  · intro hpos
    rw [hn]
    exact div_neg_of_neg_of_pos (by linarith) hd
  · intro hneg
    rw [hn]
    exact div_pos (by linarith) hd

/-- Witness for C8: coordinate `(-1, 0, 0)` of `c4vol`
(`dataMin = -3 < dataMax = -1`). -/
theorem oob_sentinel_normalized_witness :
    getVoxel c4vol (-1) 0 0 = 0 ∧
    getNormalizedVoxel c4vol (-1) 0 0 =
      (0 - c4vol.dataMin) / (c4vol.dataMax - c4vol.dataMin) ∧
    (c4vol.dataMin < c4vol.dataMax →
      (getNormalizedVoxel c4vol (-1) 0 0 = 0 ↔ c4vol.dataMin = 0) ∧
      (0 < c4vol.dataMin → getNormalizedVoxel c4vol (-1) 0 0 < 0) ∧
      (c4vol.dataMin < 0 → 0 < getNormalizedVoxel c4vol (-1) 0 0)) :=
  oob_sentinel_normalized c4vol (-1) 0 0 (Or.inl (by decide))

/-! ### Claim C9 -/

/-- C9: with positive axis dimensions the constructor's
`Math.floor(dim/2)` indices satisfy `0 ≤ index ≤ dim - 1`, and
`setSliceIndex` clamps any integer argument into that range, so the
invariant holds after construction and is preserved by every
`setSliceIndex` call. -/
theorem slice_index_invariant (vol : NiftiVolume) (hx : 0 < vol.dimensions.x)
    (hy : 0 < vol.dimensions.y) (hz : 0 < vol.dimensions.z) :
    sliceIndexInv vol (mkRenderer vol) ∧
    ∀ (s : RendererState) (p : Plane) (idx : ℤ),
      sliceIndexInv vol s → sliceIndexInv vol (setSliceIndex vol s p idx) := by
  have hhalf : ∀ n : ℤ, 0 < n → 0 ≤ ⌊(n : ℚ) / 2⌋ ∧ ⌊(n : ℚ) / 2⌋ ≤ n - 1 := by
    intro n hn
    have hq : (0 : ℚ) < n := by exact_mod_cast hn
    constructor
    · apply Int.le_floor.mpr
      push_cast
      linarith
    · have hfl : ⌊(n : ℚ) / 2⌋ < n := Int.floor_lt.mpr (by linarith [half_lt_self hq])
      omega
  constructor
  · exact ⟨(hhalf _ hz).1, (hhalf _ hz).2, (hhalf _ hy).1, (hhalf _ hy).2,
      (hhalf _ hx).1, (hhalf _ hx).2⟩
  · intro s p idx hs
    obtain ⟨h1, h2, h3, h4, h5, h6⟩ := hs
    cases p with
    | axial =>
      exact ⟨le_max_left 0 _, max_le (by omega) (min_le_left _ _), h3, h4, h5, h6⟩
    | coronal =>
      exact ⟨h1, h2, le_max_left 0 _, max_le (by omega) (min_le_left _ _), h5, h6⟩
    | sagittal =>
      exact ⟨h1, h2, h3, h4, le_max_left 0 _, max_le (by omega) (min_le_left _ _)⟩

/-- Witness for C9: the 1×1×1 volume `wvol`, after construction and after
clamping the out-of-range request `-5` on the axial plane. -/
theorem slice_index_invariant_witness :
    sliceIndexInv wvol (mkRenderer wvol) ∧
    sliceIndexInv wvol (setSliceIndex wvol (mkRenderer wvol) Plane.axial (-5)) := by
  have h := slice_index_invariant wvol (by decide) (by decide) (by decide)
  exact ⟨h.1, h.2 _ _ _ h.1⟩

/-! ### Claim C10 -/

/-- C10: `generateSurface` with a null threshold leaves the stored
`surfaceThreshold` unchanged and extracts at the stored value (`0.3` right
after construction); a non-null threshold overwrites the stored field and
the extraction runs at the new value. -/
theorem generate_surface_threshold_frame (vol : NiftiVolume)
    (s : RendererState) :
    generateSurface vol s none = (s, marchingCubes vol s.surfaceThreshold) ∧
    (∀ t : ℚ, (generateSurface vol s (some t)).1 =
        { s with surfaceThreshold := t } ∧
      (generateSurface vol s (some t)).2 = marchingCubes vol t) ∧
    (mkRenderer vol).surfaceThreshold = 3 / 10 :=
  ⟨rfl, fun _ => ⟨rfl, rfl⟩, rfl⟩

end Brain
